import Mathlib

/-!
Verification development for the weights-resolution engine of
ArchipelagoTTYDWebGenerator (src/ArchipelagoTTYDWebGenerator/generate.py).

The YAML/JSON value trees handled by the engine are embedded as the
inductive type `Val`; Python dicts become ordered association lists
(`List (Val × Val)`), matching insertion-ordered Python dicts.  The
shared `random` stream is embedded as an explicit list of natural-number
draws (`Rng`); every theorem that depends on randomness quantifies over
the whole stream.  External collaborators that are not part of this
repository (the `Utils`, `Options`, `worlds` and `BaseClasses` modules
of the Archipelago core) are either parameters of a `GenContext` or
small models whose doc comments start with `Modelled from the spec:`.

Known deliberate model boundaries (each marked at its use site):
* machine floats never appear (integer weights only, as in the claims);
* Python `deepcopy` sharing/cycles: value trees are trees (no YAML
  anchors) in the pure model; the store model in the second half of the
  file makes object identity explicit where a claim needs it;
* Python cross-type equality corner cases (`1 == True`) are not
  identified by the structural equality on `Val`.
-/

namespace TTYDGen

/-- Embedded YAML/JSON value: Python `None`, `bool`, `int`, `str`,
`list`, `set` and `dict` (ordered association list). -/
inductive Val where
  | none : Val
  | bool : Bool → Val
  | int : Int → Val
  | str : String → Val
  | list : List Val → Val
  | vset : List Val → Val
  | dict : List (Val × Val) → Val

/-- Ordered Python dict over embedded values. -/
abbrev Dic := List (Val × Val)

mutual
/-- Structural equality on embedded values, modelling Python `==` on
YAML-shaped data (cross-type identifications such as `1 == True` are a
documented model boundary). -/
def valBeq : Val → Val → Bool
  | .none, .none => true
  | .bool a, .bool b => a == b
  | .int a, .int b => a == b
  | .str a, .str b => a == b
  | .list xs, .list ys => valListBeq xs ys
  | .vset xs, .vset ys => valListBeq xs ys
  | .dict xs, .dict ys => valPairsBeq xs ys
  | _, _ => false
termination_by structural v => v

/-- Elementwise equality of value lists. -/
def valListBeq : List Val → List Val → Bool
  | [], [] => true
  | x :: xs, y :: ys => valBeq x y && valListBeq xs ys
  | _, _ => false
termination_by structural v => v

/-- Elementwise equality of dict entry lists. -/
def valPairsBeq : List (Val × Val) → List (Val × Val) → Bool
  | [], [] => true
  | (k1, v1) :: xs, (k2, v2) :: ys => valBeq k1 k2 && valBeq v1 v2 && valPairsBeq xs ys
  | _, _ => false
termination_by structural v => v
end

/-- Python `k in d` for a dict `d`. -/
def keyIn (d : Dic) (k : Val) : Bool :=
  d.any (fun p => valBeq p.1 k)

/-- Python `d[k]` lookup (first binding wins; keys are unique in real dicts). -/
def lookupD (d : Dic) (k : Val) : Option Val :=
  match d with
  | [] => Option.none
  | p :: rest => if valBeq p.1 k then Option.some p.2 else lookupD rest k

/-- Python `d[k] = v`: update the value at an existing key in place
(keeping the stored key object), append a fresh key at the end. -/
def dictSet (d : Dic) (k : Val) (v : Val) : Dic :=
  match d with
  | [] => [(k, v)]
  | p :: rest => if valBeq p.1 k then (p.1, v) :: rest else p :: dictSet rest k v

/-- Python `d.update(d2)`: apply `dictSet` for each binding of `d2` in order. -/
def dictUpdate (d : Dic) (d2 : Dic) : Dic :=
  match d2 with
  | [] => d
  | p :: rest => dictUpdate (dictSet d p.1 p.2) rest

/-- Python truthiness of an embedded value. -/
def pyTruthy : Val → Bool
  | .none => false
  | .bool b => b
  | .int n => n ≠ 0
  | .str s => s ≠ ""
  | .list xs => ¬ xs.isEmpty
  | .vset xs => ¬ xs.isEmpty
  | .dict m => ¬ m.isEmpty

/-- Python `int(v)` as used on weight values: ints pass through, bools
become 0/1, numeric strings are parsed, everything else raises. -/
def toIntVal : Val → Except String Int
  | .int n => .ok n
  | .bool b => .ok (if b then 1 else 0)
  | .str s =>
    match s.toInt? with
    | Option.some n => .ok n
    | Option.none => .error ("ValueError: invalid literal for int: " ++ s)
  | _ => .error "TypeError: int() argument must be a string or a number"

/-- Rendering of a value inside a Python f-string (`str(v)`).  Container
rendering is simplified; no claim inspects a rendered container. -/
def renderVal : Val → String
  | .none => "None"
  | .bool b => if b then "True" else "False"
  | .int n => toString n
  | .str s => s
  | .list _ => "<list>"
  | .vset _ => "<set>"
  | .dict _ => "<dict>"

/-- The shared pseudo-random stream: a list of natural draws.  Theorems
quantify over the whole stream, covering every possible RNG behaviour. -/
abbrev Rng := List Nat

/-- Consume one draw from the stream (0 when exhausted — the theorems
never depend on the exhausted case). -/
def draw : Rng → Nat × Rng
  | [] => (0, [])
  | d :: r => (d, r)

/-- Python `random.choices(population)[0]`: uniform choice of one
element; raises on an empty population. -/
def uniformChoice (xs : List Val) (rng : Rng) : Except String (Val × Rng) :=
  match xs with
  | [] => .error "IndexError: Cannot choose from an empty sequence"
  | _ =>
    let (d, rng) := draw rng
    .ok (xs.getD (d % xs.length) Val.none, rng)

/-- Cumulative pick for `random.choices(keys, weights=ws)[0]`: walk the
cumulative weights with a draw reduced modulo the (positive) total. -/
def weightedPick (pairs : List (Val × Int)) (r : Int) : Val :=
  match pairs with
  | [] => Val.none
  | (k, w) :: rest => if r < w then k else weightedPick rest (r - w)

/-- Python `random.choices(keys, weights)[0]`: raises unless the weight
total is positive; otherwise one key is selected.  The float draw of the
library is abstracted to a modular integer draw from the stream. -/
def weightedChoice (pairs : List (Val × Int)) (rng : Rng) : Except String (Val × Rng) :=
  let total : Int := pairs.foldl (fun acc p => acc + p.2) 0
  if total ≤ 0 then .error "ValueError: Total of weights must be greater than zero"
  else
    let (d, rng) := draw rng
    .ok (weightedPick pairs ((d : Int) % total), rng)

/-- Embedding of `get_choice` (generate.py lines 455-466).  The `option`
key may be any value (trigger resolution passes resolved keys through).
Branch order follows the source: absent key → default, list → uniform
choice, non-dict → returned unchanged, empty dict → default, some truthy
weight → weighted choice over keys, otherwise the all-zero error. -/
def get_choice (option : Val) (root : Dic) (value : Val) (rng : Rng) :
    Except String (Val × Rng) :=
  match lookupD root option with
  | Option.none => .ok (value, rng)
  | Option.some (Val.list xs) => uniformChoice xs rng
  | Option.some (Val.dict m) =>
    if m.isEmpty then .ok (value, rng)
    else if m.any (fun p => pyTruthy p.2) then do
      let pairs ← m.mapM (fun p => (toIntVal p.2).map (fun w => (p.1, w)))
      weightedChoice pairs rng
    else .error ("All options specified in \"" ++ renderVal option ++ "\" are weighted as zero.")
  | Option.some v => .ok (v, rng)

/-- Is `pat` a prefix of `s`? (helper for the Python string primitives). -/
def isPrefixOf : List Char → List Char → Bool
  | [], _ => true
  | _ :: _, [] => false
  | p :: ps, c :: cs => p == c && isPrefixOf ps cs

/-- Python `str.split(sep)` scanning loop over characters: leftmost
non-overlapping matches of a non-empty separator; the fuel is one more
than the input length, so it never runs out. -/
def splitGo (pat : List Char) : Nat → List Char → List Char → List (List Char)
  | _, acc, [] => [acc.reverse]
  | 0, acc, rest => [acc.reverse ++ rest]
  | fuel + 1, acc, c :: rest =>
    if isPrefixOf pat (c :: rest) && !pat.isEmpty then
      acc.reverse :: splitGo pat fuel [] (List.drop pat.length (c :: rest))
    else splitGo pat fuel (c :: acc) rest

/-- Python `s.split(sep)` for a non-empty separator. -/
def pySplitOn (s sep : String) : List String :=
  (splitGo sep.data (s.data.length + 1) [] s.data).map String.mk

/-- Python `str.replace` scanning loop: replace every leftmost
non-overlapping occurrence of a non-empty pattern. -/
def replGo (pat rep : List Char) : Nat → List Char → List Char
  | _, [] => []
  | 0, s => s
  | fuel + 1, c :: rest =>
    if isPrefixOf pat (c :: rest) && !pat.isEmpty then
      rep ++ replGo pat rep fuel (List.drop pat.length (c :: rest))
    else c :: replGo pat rep fuel rest

/-- Python `s.replace(pat, rep)` for a non-empty pattern. -/
def pyReplace (s pat rep : String) : String :=
  String.mk (replGo pat.data rep.data (s.data.length + 1) s.data)

/-- Python `str.join` over segments. -/
def interC (sep : List Char) : List (List Char) → List Char
  | [] => []
  | [x] => x
  | x :: xs => x ++ sep ++ interC sep xs

/-- Whitespace stripped by Python `str.strip()` (ASCII model; full
Unicode whitespace is a model boundary no claim touches). -/
def pyIsSpace (c : Char) : Bool :=
  c == ' ' || c == '\t' || c == '\n' || c == '\r' || c == '\x0b' || c == '\x0c'

/-- Python `s.strip()`. -/
def pyStrip (s : List Char) : List Char :=
  ((s.dropWhile pyIsSpace).reverse.dropWhile pyIsSpace).reverse

/-- Python `str.lower` on one character (ASCII model). -/
def lowerChar (c : Char) : Char :=
  if 65 ≤ c.toNat && c.toNat ≤ 90 then Char.ofNat (c.toNat + 32) else c

/-- Python `s.lower()` (ASCII model; the names in scope are ASCII). -/
def pyLower (s : String) : String := String.mk (s.data.map lowerChar)

/-- Literal-or-field scanning loop of `string.Formatter.vformat` as
subclassed by `SafeFormatter` (generate.py lines 469-477).  The second
argument is `some field` while inside a brace field, `none` in literal
mode; the `Nat` is the auto-numbering index for empty field names.
Conversion (`!`) and format-spec (`:`) suffixes and compound field names
(attribute/index access) are a model boundary and fail; no document
template in scope uses them. -/
def renderField (kw : List (String × String)) (f : List Char) (auto : Nat) :
    Except String (String × Nat) :=
  let s := String.mk f
  if f.any (fun c => c = ':' || c = '!' || c = '.' || c = '[') then
    .error "model boundary: conversion/format-spec in field name not modelled"
  else if s = "" then
    .ok ("\x7b" ++ toString auto ++ "\x7d", auto + 1)
  else if f.all Char.isDigit then
    .ok ("\x7b" ++ toString (s.toNat?.getD 0) ++ "\x7d", auto)
  else
    .ok (((kw.lookup s).getD ("\x7b" ++ s ++ "\x7d")), auto)

/-- Character-level state machine for `vformat`: `{{`/`}}` escape to
literal braces, a lone `}` (or unterminated `{`) raises, `{key}` is
resolved through `SafeFormatter.get_value` — `kwargs.get(key, "{key}")`
for string keys, the literal `"{n}"` for numeric/auto keys (the args
tuple is always empty at the call site). -/
def vfm (kw : List (String × String)) :
    List Char → Option (List Char) → Nat → Except String String
  | [], Option.none, _ => .ok ""
  | [], Option.some _, _ => .error "ValueError: Single brace encountered in format string"
  | '{' :: '{' :: rest, Option.none, a =>
    (vfm kw rest Option.none a).map (fun t => "\x7b" ++ t)
  | '}' :: '}' :: rest, Option.none, a =>
    (vfm kw rest Option.none a).map (fun t => "\x7d" ++ t)
  | '{' :: rest, Option.none, a => vfm kw rest (Option.some []) a
  | '}' :: _, Option.none, _ => .error "ValueError: Single brace encountered in format string"
  | c :: rest, Option.none, a =>
    (vfm kw rest Option.none a).map (fun t => c.toString ++ t)
  | '}' :: rest, Option.some f, a =>
    match renderField kw f a with
    | .error e => .error e
    | .ok (r, a') => (vfm kw rest Option.none a').map (fun t => r ++ t)
  | '{' :: _, Option.some _, _ => .error "ValueError: unexpected brace in field name"
  | c :: rest, Option.some f, a => vfm kw rest (Option.some (f ++ [c])) a

/-- Embedding of `SafeFormatter().vformat(fmt, (), kwargs)`. -/
def vformatSafe (fmt : String) (kw : List (String × String)) : Except String String :=
  vfm kw fmt.data Option.none 0

/-- The keyword mapping built by `handle_name` (lines 485-488), in source
order: `number`, `NUMBER` (empty unless the count exceeds 1), `player`,
`PLAYER` (empty unless the participant index exceeds 1). -/
def safeKwargs (number player : Nat) : List (String × String) :=
  [("number", toString number),
   ("NUMBER", if number > 1 then toString number else ""),
   ("player", toString player),
   ("PLAYER", if player > 1 then toString player else "")]

/-- The template-substitution core of `handle_name` (line 483 and the
`vformat` call): split on `%%`, replace `%number%`/`%player%` with brace
fields inside each segment, re-join with a single `%`, then run the safe
formatter. -/
def substituteName (name : String) (number player : Nat) : Except String String :=
  let new_name := String.mk (interC ['%'] ((pySplitOn name "%%").map
    (fun x => (pyReplace (pyReplace x "%number%" "{number}") "%player%" "{player}").data)))
  vformatSafe new_name (safeKwargs number player)

/-- The shared `collections.Counter` over case-folded raw names. -/
abbrev NameCounter := List (String × Nat)

/-- Counter lookup with default 0. -/
def counterGet (c : NameCounter) (k : String) : Nat := (c.lookup k).getD 0

/-- Python `counter[k] += 1` (new keys append in insertion order). -/
def counterIncr (c : NameCounter) (k : String) : NameCounter :=
  if (c.lookup k).isSome then
    c.map (fun p => if p.1 == k then (p.1, p.2 + 1) else p)
  else c ++ [(k, 1)]

/-- Embedding of `handle_name` (generate.py lines 480-495): bump the
case-folded counter, substitute the template, strip/truncate-to-16/strip,
and reject the reserved name `"Archipelago"`.  Python `str.strip` is
modelled by `String.trim` (ASCII whitespace). -/
def handle_name (name : String) (player : Nat) (name_counter : NameCounter) :
    Except String (String × NameCounter) :=
  let name_counter := counterIncr name_counter (pyLower name)
  let number := counterGet name_counter (pyLower name)
  match substituteName name number player with
  | .error e => .error e
  | .ok new_name =>
    let new_name := String.mk (pyStrip (List.take 16 (pyStrip new_name.data)))
    if new_name == "Archipelago" then
      .error ("You cannot name yourself \"" ++ new_name ++ "\"")
    else .ok (new_name, name_counter)

/-- Embedding of the name-uniqueness gate of `main` (generate.py lines
280-281): the run aborts unless the case-folded resolved display names
are pairwise distinct (`len(set(name.lower() for ...)) != len(names)`).
The diagnostic text elides the Python `Counter` rendering. -/
def check_names (names : List String) : Except String Unit :=
  if ((names.map pyLower).dedup).length ≠ names.length then
    .error "Names have to be unique."
  else .ok ()

/-- Python `s.startswith(c)` for a single-character needle. -/
def pyStartsWith (s : String) (c : Char) : Bool :=
  match s.data with
  | [] => false
  | x :: _ => x == c

/-- Python `s.lstrip("+-")`: drop every leading `+` or `-` character. -/
def pyLstripPM (s : String) : String :=
  String.mk (s.data.dropWhile (fun c => c == '+' || c == '-'))

/-- A value usable as a `collections.Counter` count: ints (and bools,
which are ints in Python); any other count raises during Counter
arithmetic. -/
def countOf : Val → Except String Int
  | .int n => .ok n
  | .bool b => .ok (if b then 1 else 0)
  | _ => .error "TypeError: unsupported operand type in Counter arithmetic"

/-- First loop of `Counter.__add__`: entries of the left counter whose
combined count is positive, in left order. -/
def counterAddFirst : Dic → Dic → Except String Dic
  | [], _ => .ok []
  | (k, v) :: rest, b => do
    let va ← countOf v
    let vb ← match lookupD b k with
      | Option.none => .ok (0 : Int)
      | Option.some w => countOf w
    let tail ← counterAddFirst rest b
    if va + vb > 0 then .ok ((k, Val.int (va + vb)) :: tail) else .ok tail

/-- Second loop of `Counter.__add__`: positive entries of the right
counter that are absent from the left one. -/
def counterAddSecond (a : Dic) : Dic → Except String Dic
  | [] => .ok []
  | (k, v) :: rest => do
    let tail ← counterAddSecond a rest
    if keyIn a k then .ok tail
    else do
      let vb ← countOf v
      if vb > 0 then .ok ((k, Val.int vb) :: tail) else .ok tail

/-- Python `dict(Counter(a) + Counter(b))`: elementwise addition keeping
only positive results. -/
def counterAdd (a b : Dic) : Except String Dic := do
  let first ← counterAddFirst a b
  let second ← counterAddSecond a b
  .ok (first ++ second)

/-- First loop of `Counter.__sub__`: entries of the left counter whose
difference is positive. -/
def counterSubFirst : Dic → Dic → Except String Dic
  | [], _ => .ok []
  | (k, v) :: rest, b => do
    let va ← countOf v
    let vb ← match lookupD b k with
      | Option.none => .ok (0 : Int)
      | Option.some w => countOf w
    let tail ← counterSubFirst rest b
    if va - vb > 0 then .ok ((k, Val.int (va - vb)) :: tail) else .ok tail

/-- Second loop of `Counter.__sub__`: negated negative entries of the
right counter that are absent from the left one. -/
def counterSubSecond (a : Dic) : Dic → Except String Dic
  | [] => .ok []
  | (k, v) :: rest => do
    let tail ← counterSubSecond a rest
    if keyIn a k then .ok tail
    else do
      let vb ← countOf v
      if vb < 0 then .ok ((k, Val.int (0 - vb)) :: tail) else .ok tail

/-- Python `dict(Counter(a) - Counter(b))`. -/
def counterSub (a b : Dic) : Except String Dic := do
  let first ← counterSubFirst a b
  let second ← counterSubSecond a b
  .ok (first ++ second)

/-- Python `list.remove(x)`: drop the first element equal to `x`, raise
`ValueError` when no element matches. -/
def removeFirst : List Val → Val → Except String (List Val)
  | [], _ => .error "ValueError: list.remove(x): x not in list"
  | x :: xs, v =>
    if valBeq x v then .ok xs
    else (removeFirst xs v).map (fun t => x :: t)

/-- Python `set.remove(x)` (raises `KeyError` when absent). -/
def setRemove (xs : List Val) (v : Val) : Except String (List Val) :=
  if xs.any (fun x => valBeq x v) then .ok (xs.filter (fun x => !(valBeq x v)))
  else .error "KeyError: set.remove(x): x not in set"

/-- Python `set.update(other)`: add the missing elements. -/
def setUpdate (xs ys : List Val) : List Val :=
  xs ++ ys.filter (fun y => !(xs.any (fun x => valBeq x y)))

/-- Python `set.difference_update(other)`. -/
def setDiff (xs ys : List Val) : List Val :=
  xs.filter (fun x => !(ys.any (fun y => valBeq x y)))

/-- Additive combination step of `update_weights` (lines 503-514): the
branch on `isinstance(new_value, ...)` with the base value's response.
Returns the combined value and whether the base object was mutated in
place (sets/lists) rather than rebuilt (Counter dicts).  Branches whose
Python behaviour depends on `Counter` accepting non-dict iterables, or
on `dict.update`/`set.update` cross-type corners, are model boundaries
that fail; no claim reaches them. -/
def mergeCombine (option_name : String) (nv cv : Val) : Except String (Val × Bool) :=
  match nv, cv with
  | .vset nxs, .vset cxs => .ok (Val.vset (setUpdate cxs nxs), true)
  | .vset _, _ => .error "AttributeError: base value does not support set update"
  | .list nxs, .list cxs => .ok (Val.list (cxs ++ nxs), true)
  | .list _, _ => .error "AttributeError: base value has no extend"
  | .dict nm, .dict cm => (counterAdd cm nm).map (fun m => (Val.dict m, false))
  | .dict _, _ => .error "model boundary: Counter over a non-dict base value"
  | _, _ =>
    .error ("Cannot apply merge to non-dict, set, or list type " ++ option_name ++ ".")

/-- Subtractive combination step of `update_weights` (lines 515-528);
same conventions as `mergeCombine`.  A list delta against a set base
uses `set.remove` (which exists), against a dict base it raises. -/
def removeCombine (option_name : String) (nv cv : Val) : Except String (Val × Bool) :=
  match nv, cv with
  | .vset nxs, .vset cxs => .ok (Val.vset (setDiff cxs nxs), true)
  | .vset _, _ => .error "AttributeError: base value does not support set difference"
  | .list nxs, .list cxs => (nxs.foldlM removeFirst cxs).map (fun l => (Val.list l, true))
  | .list nxs, .vset cxs => (nxs.foldlM setRemove cxs).map (fun l => (Val.vset l, true))
  | .list _, _ => .error "AttributeError: base value has no remove"
  | .dict nm, .dict cm => (counterSub cm nm).map (fun m => (Val.dict m, false))
  | .dict _, _ => .error "model boundary: Counter over a non-dict base value"
  | _, _ =>
    .error ("Cannot apply remove to non-dict, set, or list type " ++ option_name ++ ".")

/-- Iteration loop of `update_weights` (generate.py lines 500-530),
threading the base dict (Python mutates base lists/sets in place through
the `cleaned_value` alias — an in-place combination updates the base
binding too) and the `cleaned_weights` accumulator.  Delta keys must be
strings (`option.lstrip` raises otherwise). -/
def updLoop : Dic → Dic → Dic → Except String (Dic × Dic)
  | weights, cleaned, [] => .ok (weights, cleaned)
  | weights, cleaned, (okey, nv) :: rest =>
    match okey with
    | .str option =>
      let oname := Val.str (pyLstripPM option)
      if pyStartsWith option '+' && keyIn weights oname then
        match mergeCombine (pyLstripPM option) nv ((lookupD weights oname).getD .none) with
        | .error e => .error e
        | .ok (merged, inPlace) =>
          updLoop (if inPlace then dictSet weights oname merged else weights)
            (dictSet cleaned oname merged) rest
      else if pyStartsWith option '-' && keyIn weights oname then
        match removeCombine (pyLstripPM option) nv ((lookupD weights oname).getD .none) with
        | .error e => .error e
        | .ok (merged, inPlace) =>
          updLoop (if inPlace then dictSet weights oname merged else weights)
            (dictSet cleaned oname merged) rest
      else updLoop weights (dictSet cleaned oname nv) rest
    | _ => .error "AttributeError: delta key is not a string (no lstrip)"

/-- Embedding of `update_weights` (generate.py lines 498-533): run the
delta loop, then `weights.update(cleaned_weights)`.  The `update_type`
and `name` parameters of the source are unused there and dropped here;
the dead `new_options` set difference on line 531 has no effect. -/
def update_weights (weights new_weights : Dic) : Except String Dic :=
  match updLoop weights [] new_weights with
  | .error e => .error e
  | .ok (w, cleaned) => .ok (dictUpdate w cleaned)

/-- Modelled from the spec: `Options.roll_percentage` of the external
Options module — "independently roll `percentage` (0-100) against the
shared RNG".  Converts the percentage to an int (raising on non-numeric
values, as the Python division does) and consumes one draw; 0 never
succeeds, 100 always does. -/
def roll_percentage (v : Val) (rng : Rng) : Except String (Bool × Rng) :=
  match toIntVal v with
  | .error e => .error e
  | .ok p =>
    let (d, rng) := draw rng
    .ok ((((d % 100 : Nat) : Int) < p), rng)

/-- Shared overlay-application loop of `roll_linked_options` (lines
558-563) and `roll_triggers` (lines 584-588): for each
`(category_name, category_options)` pair, target the root document when
the category name is falsy and the named sub-mapping otherwise, apply
`update_weights`, and write the mutated target back. -/
def applyCategoryDeltas : Dic → List (Val × Val) → Except String Dic
  | weights, [] => .ok weights
  | weights, (category_name, category_options) :: rest =>
    let stepped : Except String Dic :=
      match category_options with
      | .dict deltas =>
        if pyTruthy category_name then
          match lookupD weights category_name with
          | Option.none => .error "KeyError: option category missing from weights"
          | Option.some (Val.dict sub) =>
            (update_weights sub deltas).map (fun sub2 => dictSet weights category_name (.dict sub2))
          | Option.some _ => .error "model boundary: category target is not a mapping"
        else update_weights weights deltas
      | _ => .error "model boundary: category delta is not a mapping"
    match stepped with
    | .error e => .error e
    | .ok w2 => applyCategoryDeltas w2 rest

/-- Per-set loop of `roll_linked_options` (lines 553-566): a set without
a `name` raises directly; everything from the percentage roll on is
wrapped into the per-set diagnostic. -/
def applyLinkedSets : Dic → List Val → Rng → Except String (Dic × Rng)
  | weights, [], rng => .ok (weights, rng)
  | weights, os :: rest, rng =>
    match os with
    | .dict option_set =>
      if !(keyIn option_set (.str "name")) then
        .error "One of your linked options does not have a name."
      else
        let inner : Except String (Dic × Rng) := do
          match lookupD option_set (.str "percentage") with
          | Option.none => .error "KeyError: percentage"
          | Option.some pv => do
            let (b, rng) ← roll_percentage pv rng
            if b then
              match lookupD option_set (.str "options") with
              | Option.none => .error "KeyError: options"
              | Option.some (Val.dict new_options) => do
                let w2 ← applyCategoryDeltas weights new_options
                .ok (w2, rng)
              | Option.some _ => .error "AttributeError: options is not a mapping"
            else .ok (weights, rng)
        match inner with
        | .error _ =>
          .error ("Linked option " ++ renderVal ((lookupD option_set (.str "name")).getD .none) ++
            " is invalid. Please fix your linked option.")
        | .ok (w2, rng) => applyLinkedSets w2 rest rng
    | _ => .error "model boundary: linked option set is not a mapping"

/-- Embedding of `roll_linked_options` (generate.py lines 551-567).  The
entry `copy.deepcopy` is the identity in the value model (the store
model later in this file revisits object identity); iterating a
non-list `linked_options` value is a model boundary. -/
def roll_linked_options (weights : Dic) (rng : Rng) : Except String (Dic × Rng) :=
  match lookupD weights (.str "linked_options") with
  | Option.some (Val.list sets) => applyLinkedSets weights sets rng
  | Option.some _ => .error "model boundary: linked_options is not a list"
  | Option.none => .error "KeyError: linked_options"

/-- Python `set.add` on the accumulator of recognized option keys. -/
def setAddVal (s : List Val) (v : Val) : List Val :=
  if s.any (fun x => valBeq x v) then s else s ++ [v]

/-- Target sub-tree selection of a trigger/linked-option category (the
`currently_targeted_weights` convention): the root document for a falsy
category, else the named sub-mapping. -/
def getTarget (weights : Dic) (category : Val) : Except String Dic :=
  if pyTruthy category then
    match lookupD weights category with
    | Option.none => .error "KeyError: option_category missing from weights"
    | Option.some (Val.dict sub) => .ok sub
    | Option.some _ => .error "model boundary: option_category target is not a mapping"
  else .ok weights

/-- Write a mutated target sub-tree back into the document (a no-op at
the root, where the target is the document itself). -/
def putTarget (weights : Dic) (category : Val) (t : Dic) : Dic :=
  if pyTruthy category then dictSet weights category (.dict t) else t

/-- Body of one `roll_triggers` iteration (lines 575-589), before the
per-trigger error wrapping: resolve the watched option in the target
sub-tree and write the resolved value back, then on a result match and a
successful percentage roll merge the trigger's `options` overlay, and
record the recognized key. -/
def triggerStep (weights : Dic) (os : Val) (valid_keys : List Val) (rng : Rng) :
    Except String (Dic × List Val × Rng) :=
  match os with
  | .dict option_set => do
    let category := (lookupD option_set (.str "option_category")).getD .none
    let t ← getTarget weights category
    let (key, rng) ← get_choice (.str "option_name") option_set .none rng
    let (trigger_result, rng) ← get_choice (.str "option_result") option_set .none rng
    let (result, rng) ← get_choice key t .none rng
    let weights := putTarget weights category (dictSet t key result)
    if valBeq result trigger_result then do
      let (pv, rng) ← get_choice (.str "percentage") option_set (.int 100) rng
      let (b, rng) ← roll_percentage pv rng
      if b then
        match lookupD option_set (.str "options") with
        | Option.none => .error "KeyError: options"
        | Option.some (Val.dict new_options) => do
          let weights ← applyCategoryDeltas weights new_options
          .ok (weights, setAddVal valid_keys key, rng)
        | Option.some _ => .error "AttributeError: options is not a mapping"
      else .ok (weights, setAddVal valid_keys key, rng)
    else .ok (weights, setAddVal valid_keys key, rng)
  | _ => .error "AttributeError: trigger is not a mapping"

/-- Per-trigger loop of `roll_triggers` (lines 573-592): run each
trigger's step, wrapping every failure into the 1-based per-trigger
diagnostic. -/
def applyTriggerSets : Dic → List Val → List Val → Rng → Nat →
    Except String (Dic × List Val × Rng)
  | weights, [], valid_keys, rng, _ => .ok (weights, valid_keys, rng)
  | weights, os :: rest, valid_keys, rng, i =>
    match triggerStep weights os valid_keys rng with
    | .error _ =>
      .error ("Your trigger number " ++ toString (i + 1) ++ " is invalid. Please fix your triggers.")
    | .ok (w2, vk2, rng2) => applyTriggerSets w2 rest vk2 rng2 (i + 1)

/-- Embedding of `roll_triggers` (generate.py lines 570-593).  The entry
`copy.deepcopy` is the identity in the value model (see the store model
for the object-identity claims); the generator-version stamp uses the
engine version string.  The `triggers` argument arrives as a raw value
(the caller passes `weights["triggers"]`); iterating a non-list is a
model boundary. -/
def roll_triggers (gen_version : String) (weights : Dic) (triggers : Val)
    (valid_keys : List Val) (rng : Rng) : Except String (Dic × List Val × Rng) :=
  let weights := dictSet weights (.str "_Generator_Version") (.str gen_version)
  match triggers with
  | .list ts => applyTriggerSets weights ts valid_keys rng 0
  | _ => .error "model boundary: triggers is not a list"

/-- Descriptor of one option type from the external option-type system
(spec §6): weight-capability flag, declared default, `from_any`
conversion and `verify` validation (the world/player/plando context of
`verify` is captured inside the function). -/
structure OptionDesc where
  supports_weighting : Bool
  default : Val
  from_any : Val → Except String Val
  verify : Val → Except String Unit

/-- One registered world: its per-game option set (`options_dataclass
.type_hints`, in declaration order). -/
structure WorldType where
  options_dataclass : List (String × OptionDesc)

/-- Parameters of the resolution run that live outside this repository:
the world registry, the common option sets, the engine version, and the
version/plando parsing collaborators. -/
structure GenContext where
  world_types : List (String × WorldType)
  common_options : List (String × OptionDesc)
  per_game_common_keys : List String
  version_tuple : Nat × Nat × Nat
  version_string : String
  tuplize_version : Val → Except String (Nat × Nat × Nat)
  plando_from_string : Val → Except String Nat

/-- Lexicographic order on `(major, minor, build)` version tuples
(Python compares `Version` named tuples componentwise). -/
def versionLt (a b : Nat × Nat × Nat) : Bool :=
  a.1 < b.1 || (a.1 == b.1 && (a.2.1 < b.2.1 || (a.2.1 == b.2.1 && a.2.2 < b.2.2)))

/-- Parse a non-empty all-digit character list as a natural number. -/
def charsToNat? (cs : List Char) : Option Nat :=
  if cs.isEmpty || !(cs.all Char.isDigit) then Option.none
  else Option.some (cs.foldl (fun acc c => acc * 10 + (c.toNat - 48)) 0)

/-- Modelled from the spec: the external `Utils.tuplize_version`
collaborator — "parse `version`" —: a dotted `major.minor.build` string
becomes a 3-tuple, everything else raises. -/
def tuplizeVersionModel (v : Val) : Except String (Nat × Nat × Nat) :=
  match v with
  | .str s =>
    match (pySplitOn s ".").map (fun p => charsToNat? p.data) with
    | [Option.some a, Option.some b, Option.some c] => .ok (a, b, c)
    | _ => .error "ValueError: invalid version string"
  | _ => .error "AttributeError: version is not a string"

/-- Modelled from the spec: `PlandoOptions.from_option_string` of the
external BaseClasses module — a comma-separated capability list becomes
a bit set; unknown module names raise. -/
def plandoBitsModel (v : Val) : Except String Nat :=
  match v with
  | .str s =>
    (pySplitOn s ",").foldlM (fun acc part =>
      let p := String.mk (pyStrip part.data)
      if p = "" then .ok acc
      else if p = "bosses" then .ok (acc ||| 1)
      else if p = "items" then .ok (acc ||| 2)
      else if p = "texts" then .ok (acc ||| 4)
      else if p = "connections" then .ok (acc ||| 8)
      else .error ("ValueError: unknown plando module " ++ p)) 0
  | _ => .error "AttributeError: plando is not a string"

/-- The resolved settings record for one participant (the fields of the
`argparse.Namespace` built by `roll_settings`). -/
structure PRecord where
  game : String
  name : Val
  opts : List (String × Val)

/-- Python `setattr` on the record's option fields. -/
def setOpt : List (String × Val) → String → Val → List (String × Val)
  | [], k, v => [(k, v)]
  | p :: rest, k, v => if p.1 == k then (p.1, v) :: rest else p :: setOpt rest k v

/-- Raise `msg` unless `c` holds (an `if cond: raise` statement). -/
def guardE (c : Bool) (msg : String) : Except String Unit :=
  if c then .ok () else .error msg

/-- The `requires` block check of `roll_settings` (lines 631-641):
version gate first, then the plando-capability subset gate (flag
containment is bitmask containment). -/
def checkRequires (ctx : GenContext) (weights : Dic) (plando_options : Nat) :
    Except String Unit :=
  let requirements := (lookupD weights (.str "requires")).getD (.dict [])
  if pyTruthy requirements then
    match requirements with
    | .dict req => do
      let version := (lookupD req (.str "version")).getD (.str ctx.version_string)
      let vt ← ctx.tuplize_version version
      if versionLt ctx.version_tuple vt then
        .error ("Settings reports required version of generator is at least " ++
          renderVal version ++ ", however generator is of version " ++ ctx.version_string)
      else do
        let plando_raw := (lookupD req (.str "plando")).getD (.str "")
        let required ← ctx.plando_from_string plando_raw
        if !(required &&& plando_options == required) then
          if required ≠ 0 then
            .error "Settings reports a required plando module, which is not enabled."
          else .ok ()
        else .ok ()
    | _ => .error "AttributeError: requires is not a mapping"
  else .ok ()

/-- The category-confusion guard of `roll_settings` (lines 644-646): a
per-game common option key may not sit at the document's top level. -/
def checkPerGameKeys (common_names : List String) (weights : Dic) :
    List String → Except String Unit
  | [] => .ok ()
  | k :: rest =>
    if keyIn weights (.str k) && !(common_names.contains k) then
      .error ("Option " ++ k ++ " has to be in a game's section, not on its own.")
    else checkPerGameKeys common_names weights rest

/-- The merge-tag scan of `roll_settings` (lines 669-673) over
`chain(game_weights, weights)`: any key starting with `+` or `-` raises;
a non-string key raises `AttributeError` (`startswith` missing). -/
def scanMergeTags : List Val → Except String Unit
  | [] => .ok ()
  | k :: rest =>
    match k with
    | .str s =>
      if pyStartsWith s '+' then
        .error ("Merge tag cannot be used outside of trigger contexts. Found " ++ s)
      else if pyStartsWith s '-' then
        .error ("Remove tag cannot be used outside of trigger contexts. Found " ++ s)
      else scanMergeTags rest
    | _ => .error "AttributeError: non-string key has no startswith"

/-- Embedding of `handle_option` (generate.py lines 596-610): resolve
the raw value (raw passthrough for non-weightable options, weighted
choice otherwise, declared default when the key is absent), convert via
`from_any` — failures up to here are wrapped into the per-option
diagnostic — then store the value and run `verify`, whose failures
propagate unwrapped. -/
def handle_option (game : String) (ret : List (String × Val)) (game_weights : Dic)
    (option_key : String) (option : OptionDesc) (rng : Rng) :
    Except String (List (String × Val) × Rng) :=
  let inner : Except String (Val × Rng) :=
    if keyIn game_weights (.str option_key) then
      if !option.supports_weighting then
        match lookupD game_weights (.str option_key) with
        | Option.some raw => (option.from_any raw).map (fun v => (v, rng))
        | Option.none => .error "KeyError: option_key"
      else
        match get_choice (.str option_key) game_weights .none rng with
        | .error e => .error e
        | .ok (c, rng) => (option.from_any c).map (fun v => (v, rng))
    else (option.from_any option.default).map (fun v => (v, rng))
  match inner with
  | .error _ => .error ("Error generating option " ++ option_key ++ " in " ++ game)
  | .ok (v, rng) =>
    match option.verify v with
    | .error e => .error e
    | .ok _ => .ok (setOpt ret option_key v, rng)

/-- The common-options loop of `roll_settings` (lines 680-681): each
common option is resolved with its declared default and converted;
failures propagate unwrapped. -/
def rollCommonOptions (weights : Dic) :
    List (String × OptionDesc) → List (String × Val) → Rng →
    Except String (List (String × Val) × Rng)
  | [], acc, rng => .ok (acc, rng)
  | (k, option) :: rest, acc, rng => do
    let (c, rng) ← get_choice (.str k) weights option.default rng
    let v ← option.from_any c
    rollCommonOptions weights rest (setOpt acc k v) rng

/-- The game-options loop of `roll_settings` (lines 683-685): run
`handle_option` for every option of the chosen world, accumulating the
recognized keys. -/
def rollGameOptions (game : String) (game_weights : Dic) :
    List (String × OptionDesc) → List (String × Val) → List Val → Rng →
    Except String (List (String × Val) × List Val × Rng)
  | [], acc, vk, rng => .ok (acc, vk, rng)
  | (k, option) :: rest, acc, vk, rng => do
    let (acc2, rng) ← handle_option game acc game_weights k option rng
    rollGameOptions game game_weights rest acc2 (setAddVal vk (.str k)) rng

/-- Stage 1 of `roll_settings` (lines 624-625): linked options when the
key is present. -/
def stageLinked (weights : Dic) (rng : Rng) : Except String (Dic × Rng) :=
  if keyIn weights (.str "linked_options") then roll_linked_options weights rng
  else .ok (weights, rng)

/-- Stage 2 of `roll_settings` (lines 627-629): root-level triggers when
the key is present. -/
def stageRootTriggers (gv : String) (weights : Dic) (valid_keys : List Val)
    (rng : Rng) : Except String (Dic × List Val × Rng) :=
  if keyIn weights (.str "triggers") then
    roll_triggers gv weights ((lookupD weights (.str "triggers")).getD .none)
      valid_keys rng
  else .ok (weights, valid_keys, rng)

/-- The `game` value must be a string (lines 649-652). -/
def requireGameString (gameV : Val) : Except String String :=
  match gameV with
  | .str g => .ok g
  | .none => .error "\"game\" not specified"
  | _ => .error ("Invalid game: " ++ renderVal gameV)

/-- Extract the chosen game's section (line 667; a non-mapping section
is a model boundary). -/
def requireGameSection (weights : Dic) (game : String) : Except String Dic :=
  match lookupD weights (.str game) with
  | Option.some (Val.dict gw) => .ok gw
  | Option.some _ => .error "model boundary: game section is not a mapping"
  | Option.none => .error "KeyError: game section"

/-- Stage for game-section triggers (lines 675-677): re-resolve the game
section from the transformed document afterwards. -/
def stageGameTriggers (gv : String) (game : String) (weights game_weights : Dic)
    (valid_keys : List Val) (rng : Rng) :
    Except String (Dic × Dic × List Val × Rng) :=
  if keyIn game_weights (.str "triggers") then do
    let (w2, vk2, rng2) ← roll_triggers gv weights
      ((lookupD game_weights (.str "triggers")).getD .none) valid_keys rng
    let gw2 ← requireGameSection w2 game
    .ok (w2, gw2, vk2, rng2)
  else .ok (weights, game_weights, valid_keys, rng)

/-- Embedding of `roll_settings` (generate.py lines 613-692), stage by
stage in source order: linked options, root triggers, `requires` gates,
category-confusion guard, game resolution (the fuzzy-suggestion text of
the unknown-game diagnostic is collaborator output and elided), game
section lookup, merge-tag scan, game-section triggers, `name`
resolution, common options, game options.  The final unused-key loop
(lines 688-690) has no effect and is dropped. -/
def roll_settings (ctx : GenContext) (weights : Dic) (plando_options : Nat)
    (rng : Rng) : Except String (PRecord × Rng) := do
  let (weights, rng) ← stageLinked weights rng
  let valid_keys : List Val := [.str "triggers"]
  let (weights, valid_keys, rng) ← stageRootTriggers ctx.version_string weights valid_keys rng
  checkRequires ctx weights plando_options
  checkPerGameKeys (ctx.common_options.map Prod.fst) weights ctx.per_game_common_keys
  let (gameV, rng) ← get_choice (.str "game") weights .none rng
  let game ← requireGameString gameV
  guardE ((ctx.world_types.lookup game).isSome)
    ("No world found to handle game " ++ game ++ ". Check your spelling or installation of that world.")
  guardE (keyIn weights (.str game))
    ("No game options for selected game \"" ++ game ++ "\" found.")
  let world_type := (ctx.world_types.lookup game).getD (WorldType.mk [])
  let game_weights ← requireGameSection weights game
  scanMergeTags (game_weights.map Prod.fst ++ weights.map Prod.fst)
  let (weights, game_weights, valid_keys, rng) ←
    stageGameTriggers ctx.version_string game weights game_weights valid_keys rng
  let (nameV, rng) ← get_choice (.str "name") weights .none rng
  let (copts, rng) ← rollCommonOptions weights ctx.common_options [] rng
  let (opts, valid_keys2, rng) ←
    rollGameOptions game game_weights world_type.options_dataclass copts valid_keys rng
  let _ := valid_keys2
  .ok (PRecord.mk game nameV opts, rng)

/-- Embedding of `roll_meta_option` (generate.py lines 536-548): a falsy
category rolls against the meta section directly; a registered game
whose option set holds the key either rolls (weightable) or returns the
raw stored value (non-weightable); everything else raises the meta
diagnostic. -/
def roll_meta_option (ctx : GenContext) (option_key : Val) (game : Val)
    (category_dict : Dic) (rng : Rng) : Except String (Val × Rng) :=
  if !(pyTruthy game) then get_choice option_key category_dict .none rng
  else
    let found : Option OptionDesc :=
      match game with
      | .str g =>
        match ctx.world_types.lookup g with
        | Option.some game_world =>
          match option_key with
          | .str k => game_world.options_dataclass.lookup k
          | _ => Option.none
        | Option.none => Option.none
      | _ => Option.none
    match found with
    | Option.some option =>
      if option.supports_weighting then get_choice option_key category_dict .none rng
      else
        match lookupD category_dict option_key with
        | Option.some v => .ok (v, rng)
        | Option.none => .error "KeyError: option_key not in category_dict"
    | Option.none =>
      .error ("Error generating meta option " ++ renderVal option_key ++ " for " ++
        renderVal game ++ ".")

/-- An option descriptor that accepts any value unchanged (used by the
concrete contexts of witnesses and counterexamples). -/
def plainOption (weightable : Bool) (dflt : Val) : OptionDesc where
  supports_weighting := weightable
  default := dflt
  from_any := fun v => .ok v
  verify := fun _ => .ok ()

/-- A concrete generation context for witnesses and counterexamples:
engine version 0.6.3, the spec-modelled collaborators, and a two-option
registry for the TTYD world. -/
def defaultCtx : GenContext where
  world_types :=
    [("Paper Mario: The Thousand-Year Door",
      WorldType.mk
        [("chapter_clears", plainOption true (.int 7)),
         ("palace_skip", plainOption false (.bool false))])]
  common_options := [("progression_balancing", plainOption true (.int 50))]
  per_game_common_keys := ["progression_balancing", "accessibility"]
  version_tuple := (0, 6, 3)
  version_string := "0.6.3"
  tuplize_version := tuplizeVersionModel
  plando_from_string := plandoBitsModel

/-- Truthiness of an `Except` outcome: `true` exactly on `ok`. -/
def isOkE : Except String α → Bool
  | .ok _ => true
  | .error _ => false

/-!
Store model.  The isolation claims about `roll_linked_options` /
`roll_triggers` are about Python object identity, which the pure value
model above cannot see.  This second embedding of the same source
functions makes the store explicit: containers (dicts, lists, sets)
live in numbered heap cells, scalars are immediate, and `copy.deepcopy`
allocates fresh cells.  Cycles and `deepcopy`'s memo-based sharing
preservation are a model boundary (document trees only), handled by the
fuel parameter.
-/

/-- Store-level value: scalars are immediate, containers sit behind a
reference into the heap. -/
inductive HVal where
  | none : HVal
  | bool : Bool → HVal
  | int : Int → HVal
  | str : String → HVal
  | ref : Nat → HVal
  deriving DecidableEq

/-- One heap cell: a Python dict, list or set object. -/
inductive HNode where
  | dict : List (HVal × HVal) → HNode
  | list : List HVal → HNode
  | hset : List HVal → HNode
  deriving DecidableEq

/-- The object store: numbered cells plus the next fresh id. -/
structure Heap where
  cells : List (Nat × HNode)
  next : Nat

/-- Read the cell `id`. -/
def hGet (h : Heap) (id : Nat) : Option HNode :=
  match h.cells.find? (fun p => p.1 == id) with
  | Option.some p => Option.some p.2
  | Option.none => Option.none

/-- Overwrite the existing cell `id` (in-place container mutation). -/
def hSet (h : Heap) (id : Nat) (nd : HNode) : Heap :=
  Heap.mk (h.cells.map (fun p => if p.1 == id then (p.1, nd) else p)) h.next

/-- Allocate a fresh cell. -/
def halloc (h : Heap) (nd : HNode) : Heap × Nat :=
  (Heap.mk (h.cells ++ [(h.next, nd)]) (h.next + 1), h.next)

/-- Dict-entry lookup at the store level (keys are hashable scalars in
every document in scope; reference keys are a model boundary compared
here by identity). -/
def hAssocFind : List (HVal × HVal) → HVal → Option HVal
  | [], _ => Option.none
  | p :: rest, k => if p.1 = k then Option.some p.2 else hAssocFind rest k

/-- Dict-entry membership at the store level. -/
def hAssocKeyIn (m : List (HVal × HVal)) (k : HVal) : Bool :=
  (hAssocFind m k).isSome

/-- Python `d[k] = v` on a dict entry list. -/
def hAssocSet : List (HVal × HVal) → HVal → HVal → List (HVal × HVal)
  | [], k, v => [(k, v)]
  | p :: rest, k, v => if p.1 = k then (p.1, v) :: rest else p :: hAssocSet rest k v

/-- Python `d[k] = v` through a dict reference. -/
def hDictSet (h : Heap) (did : Nat) (k v : HVal) : Except String Heap :=
  match hGet h did with
  | Option.some (.dict m) => .ok (hSet h did (.dict (hAssocSet m k v)))
  | _ => .error "TypeError: item assignment on a non-dict"

/-- Store-level truthiness (containers are truthy when non-empty). -/
def truthyH (h : Heap) : HVal → Bool
  | .none => false
  | .bool b => b
  | .int n => n ≠ 0
  | .str s => s ≠ ""
  | .ref id =>
    match hGet h id with
    | Option.some (.dict m) => !m.isEmpty
    | Option.some (.list xs) => !xs.isEmpty
    | Option.some (.hset xs) => !xs.isEmpty
    | Option.none => false

/-- Python `int(v)` at the store level (containers raise). -/
def toIntH : HVal → Except String Int
  | .int n => .ok n
  | .bool b => .ok (if b then 1 else 0)
  | .str s =>
    match charsToNat? (s.data.dropWhile (fun c => c == '-')) with
    | Option.some n => .ok (if pyStartsWith s '-' then -(n : Int) else (n : Int))
    | Option.none => .error ("ValueError: invalid literal for int: " ++ s)
  | _ => .error "TypeError: int() argument must be a string or a number"

mutual
/-- Python `==` at the store level, dereferencing containers; the fuel
bounds the comparison depth (cyclic structures are a model boundary).
Dict comparison is order-sensitive here (a boundary; document
comparisons in scope are scalar-vs-scalar). -/
def hEqV (h : Heap) : Nat → HVal → HVal → Bool
  | 0, _, _ => false
  | fuel + 1, a, b =>
    match a, b with
    | .ref i, .ref j =>
      match hGet h i, hGet h j with
      | Option.some n1, Option.some n2 => hEqNode h fuel n1 n2
      | _, _ => false
    | .ref _, _ => false
    | _, .ref _ => false
    | a, b => a = b
termination_by structural f => f

/-- Container comparison helper of `hEqV`. -/
def hEqNode (h : Heap) : Nat → HNode → HNode → Bool
  | 0, _, _ => false
  | fuel + 1, .dict m1, .dict m2 => hEqPairs h fuel m1 m2
  | fuel + 1, .list l1, .list l2 => hEqList h fuel l1 l2
  | fuel + 1, .hset l1, .hset l2 => hEqList h fuel l1 l2
  | _, _, _ => false
termination_by structural f => f

/-- Pairwise list comparison helper of `hEqV`. -/
def hEqList (h : Heap) : Nat → List HVal → List HVal → Bool
  | 0, _, _ => false
  | _ + 1, [], [] => true
  | fuel + 1, x :: xs, y :: ys => hEqV h fuel x y && hEqList h fuel xs ys
  | _ + 1, _, _ => false
termination_by structural f => f

/-- Pairwise dict-entry comparison helper of `hEqV`. -/
def hEqPairs (h : Heap) : Nat → List (HVal × HVal) → List (HVal × HVal) → Bool
  | 0, _, _ => false
  | _ + 1, [], [] => true
  | fuel + 1, (k1, v1) :: xs, (k2, v2) :: ys =>
    hEqV h fuel k1 k2 && hEqV h fuel v1 v2 && hEqPairs h fuel xs ys
  | _ + 1, _, _ => false
termination_by structural f => f
end

mutual
/-- Store-level `copy.deepcopy`: every reachable container is re-created
in a fresh cell (memo-based sharing preservation and cycles are a model
boundary caught by the fuel). -/
def dcV : Nat → Heap → HVal → Except String (Heap × HVal)
  | 0, _, _ => .error "deepcopy: recursion limit (model boundary)"
  | fuel + 1, h, v =>
    match v with
    | .ref id =>
      match hGet h id with
      | Option.some (.dict m) =>
        match dcPairs fuel h m with
        | .error e => .error e
        | .ok (h, m2) =>
          match halloc h (.dict m2) with
          | (h, nid) => .ok (h, .ref nid)
      | Option.some (.list xs) =>
        match dcList fuel h xs with
        | .error e => .error e
        | .ok (h, xs2) =>
          match halloc h (.list xs2) with
          | (h, nid) => .ok (h, .ref nid)
      | Option.some (.hset xs) =>
        match dcList fuel h xs with
        | .error e => .error e
        | .ok (h, xs2) =>
          match halloc h (.hset xs2) with
          | (h, nid) => .ok (h, .ref nid)
      | Option.none => .error "deepcopy: dangling reference"
    | _ => .ok (h, v)
termination_by structural f => f

/-- Deep copy of a value list. -/
def dcList : Nat → Heap → List HVal → Except String (Heap × List HVal)
  | 0, _, _ => .error "deepcopy: recursion limit (model boundary)"
  | _ + 1, h, [] => .ok (h, [])
  | fuel + 1, h, x :: xs =>
    match dcV fuel h x with
    | .error e => .error e
    | .ok (h, x2) =>
      match dcList fuel h xs with
      | .error e => .error e
      | .ok (h, xs2) => .ok (h, x2 :: xs2)
termination_by structural f => f

/-- Deep copy of a dict entry list. -/
def dcPairs : Nat → Heap → List (HVal × HVal) → Except String (Heap × List (HVal × HVal))
  | 0, _, _ => .error "deepcopy: recursion limit (model boundary)"
  | _ + 1, h, [] => .ok (h, [])
  | fuel + 1, h, (k, v) :: rest =>
    match dcV fuel h k with
    | .error e => .error e
    | .ok (h, k2) =>
      match dcV fuel h v with
      | .error e => .error e
      | .ok (h, v2) =>
        match dcPairs fuel h rest with
        | .error e => .error e
        | .ok (h, rest2) => .ok (h, (k2, v2) :: rest2)
termination_by structural f => f
end

/-- Store-level `set.update` (membership via `==`). -/
def setUpdateH (h : Heap) (fuel : Nat) (cxs nxs : List HVal) : List HVal :=
  cxs ++ nxs.filter (fun y => !(cxs.any (fun x => hEqV h fuel x y)))

/-- Store-level `set.difference_update`. -/
def setDiffH (h : Heap) (fuel : Nat) (cxs nxs : List HVal) : List HVal :=
  cxs.filter (fun x => !(nxs.any (fun y => hEqV h fuel x y)))

/-- Store-level `list.remove` (first match by `==`, `ValueError` when
absent). -/
def removeFirstH (h : Heap) (fuel : Nat) : List HVal → HVal → Except String (List HVal)
  | [], _ => .error "ValueError: list.remove(x): x not in list"
  | x :: xs, v =>
    if hEqV h fuel x v then .ok xs
    else (removeFirstH h fuel xs v).map (fun t => x :: t)

/-- Store-level `set.remove`. -/
def setRemoveH (h : Heap) (fuel : Nat) (xs : List HVal) (v : HVal) :
    Except String (List HVal) :=
  if xs.any (fun x => hEqV h fuel x v) then .ok (xs.filter (fun x => !(hEqV h fuel x v)))
  else .error "KeyError: set.remove(x): x not in set"

/-- Store-level Counter count extraction (ints and bools only). -/
def countOfH : HVal → Except String Int
  | .int n => .ok n
  | .bool b => .ok (if b then 1 else 0)
  | _ => .error "TypeError: unsupported operand type in Counter arithmetic"

/-- Store-level first loop of `Counter.__add__`. -/
def counterAddFirstH : List (HVal × HVal) → List (HVal × HVal) → Except String (List (HVal × HVal))
  | [], _ => .ok []
  | (k, v) :: rest, b => do
    let va ← countOfH v
    let vb ← match hAssocFind b k with
      | Option.none => .ok (0 : Int)
      | Option.some w => countOfH w
    let tail ← counterAddFirstH rest b
    if va + vb > 0 then .ok ((k, HVal.int (va + vb)) :: tail) else .ok tail

/-- Store-level second loop of `Counter.__add__`. -/
def counterAddSecondH (a : List (HVal × HVal)) : List (HVal × HVal) → Except String (List (HVal × HVal))
  | [] => .ok []
  | (k, v) :: rest => do
    let tail ← counterAddSecondH a rest
    if hAssocKeyIn a k then .ok tail
    else do
      let vb ← countOfH v
      if vb > 0 then .ok ((k, HVal.int vb) :: tail) else .ok tail

/-- Store-level `dict(Counter(a) + Counter(b))`. -/
def counterAddH (a b : List (HVal × HVal)) : Except String (List (HVal × HVal)) := do
  let first ← counterAddFirstH a b
  let second ← counterAddSecondH a b
  .ok (first ++ second)

/-- Store-level first loop of `Counter.__sub__`. -/
def counterSubFirstH : List (HVal × HVal) → List (HVal × HVal) → Except String (List (HVal × HVal))
  | [], _ => .ok []
  | (k, v) :: rest, b => do
    let va ← countOfH v
    let vb ← match hAssocFind b k with
      | Option.none => .ok (0 : Int)
      | Option.some w => countOfH w
    let tail ← counterSubFirstH rest b
    if va - vb > 0 then .ok ((k, HVal.int (va - vb)) :: tail) else .ok tail

/-- Store-level second loop of `Counter.__sub__`. -/
def counterSubSecondH (a : List (HVal × HVal)) : List (HVal × HVal) → Except String (List (HVal × HVal))
  | [] => .ok []
  | (k, v) :: rest => do
    let tail ← counterSubSecondH a rest
    if hAssocKeyIn a k then .ok tail
    else do
      let vb ← countOfH v
      if vb < 0 then .ok ((k, HVal.int (0 - vb)) :: tail) else .ok tail

/-- Store-level `dict(Counter(a) - Counter(b))`. -/
def counterSubH (a b : List (HVal × HVal)) : Except String (List (HVal × HVal)) := do
  let first ← counterSubFirstH a b
  let second ← counterSubSecondH a b
  .ok (first ++ second)

/-- Store-level iteration loop of `update_weights` (lines 500-530): the
base dict is addressed by `wid`; in-place list/set mutations go through
`hSet` on the element's own cell, so aliases elsewhere in the store
observe them — this is the behaviour the pure model cannot express.
The `cleaned_weights` accumulator stores values by reference, exactly
like the Python assignments. -/
def updLoopH (fuel : Nat) : Heap → Nat → List (HVal × HVal) → List (HVal × HVal) →
    Except String (Heap × List (HVal × HVal))
  | h, _, cleaned, [] => .ok (h, cleaned)
  | h, wid, cleaned, (okey, nv) :: rest =>
    match okey with
    | .str option =>
      let oname := HVal.str (pyLstripPM option)
      match hGet h wid with
      | Option.some (.dict wm) =>
        if pyStartsWith option '+' && hAssocKeyIn wm oname then
          let cv := (hAssocFind wm oname).getD .none
          match nv with
          | .ref nid =>
            match hGet h nid with
            | Option.some (.hset nxs) =>
              match cv with
              | .ref cid =>
                match hGet h cid with
                | Option.some (.hset cxs) =>
                  updLoopH fuel (hSet h cid (.hset (setUpdateH h fuel cxs nxs)) ) wid
                    (hAssocSet cleaned oname cv) rest
                | _ => .error "AttributeError: base value does not support set update"
              | _ => .error "AttributeError: base value does not support set update"
            | Option.some (.list nxs) =>
              match cv with
              | .ref cid =>
                match hGet h cid with
                | Option.some (.list cxs) =>
                  updLoopH fuel (hSet h cid (.list (cxs ++ nxs))) wid
                    (hAssocSet cleaned oname cv) rest
                | _ => .error "AttributeError: base value has no extend"
              | _ => .error "AttributeError: base value has no extend"
            | Option.some (.dict nm) =>
              match cv with
              | .ref cid =>
                match hGet h cid with
                | Option.some (.dict cm) =>
                  match counterAddH cm nm with
                  | .error e => .error e
                  | .ok merged =>
                    match halloc h (.dict merged) with
                    | (h2, mid) => updLoopH fuel h2 wid (hAssocSet cleaned oname (.ref mid)) rest
                | _ => .error "model boundary: Counter over a non-dict base value"
              | _ => .error "model boundary: Counter over a non-dict base value"
            | Option.none => .error "dangling reference"
          | _ =>
            .error ("Cannot apply merge to non-dict, set, or list type " ++ pyLstripPM option ++ ".")
        else if pyStartsWith option '-' && hAssocKeyIn wm oname then
          let cv := (hAssocFind wm oname).getD .none
          match nv with
          | .ref nid =>
            match hGet h nid with
            | Option.some (.hset nxs) =>
              match cv with
              | .ref cid =>
                match hGet h cid with
                | Option.some (.hset cxs) =>
                  updLoopH fuel (hSet h cid (.hset (setDiffH h fuel cxs nxs))) wid
                    (hAssocSet cleaned oname cv) rest
                | _ => .error "AttributeError: base value does not support set difference"
              | _ => .error "AttributeError: base value does not support set difference"
            | Option.some (.list nxs) =>
              match cv with
              | .ref cid =>
                match hGet h cid with
                | Option.some (.list cxs) =>
                  match nxs.foldlM (removeFirstH h fuel) cxs with
                  | .error e => .error e
                  | .ok cxs2 =>
                    updLoopH fuel (hSet h cid (.list cxs2)) wid
                      (hAssocSet cleaned oname cv) rest
                | Option.some (.hset cxs) =>
                  match nxs.foldlM (setRemoveH h fuel) cxs with
                  | .error e => .error e
                  | .ok cxs2 =>
                    updLoopH fuel (hSet h cid (.hset cxs2)) wid
                      (hAssocSet cleaned oname cv) rest
                | _ => .error "AttributeError: base value has no remove"
              | _ => .error "AttributeError: base value has no remove"
            | Option.some (.dict nm) =>
              match cv with
              | .ref cid =>
                match hGet h cid with
                | Option.some (.dict cm) =>
                  match counterSubH cm nm with
                  | .error e => .error e
                  | .ok merged =>
                    match halloc h (.dict merged) with
                    | (h2, mid) => updLoopH fuel h2 wid (hAssocSet cleaned oname (.ref mid)) rest
                | _ => .error "model boundary: Counter over a non-dict base value"
              | _ => .error "model boundary: Counter over a non-dict base value"
            | Option.none => .error "dangling reference"
          | _ =>
            .error ("Cannot apply remove to non-dict, set, or list type " ++ pyLstripPM option ++ ".")
        else updLoopH fuel h wid (hAssocSet cleaned oname nv) rest
      | _ => .error "TypeError: weights target is not a dict"
    | _ => .error "AttributeError: delta key is not a string (no lstrip)"

/-- Store-level `update_weights` (lines 498-533): run the loop over the
delta dict's entries, then `weights.update(cleaned_weights)` on the base
dict cell. -/
def update_weightsH (fuel : Nat) (h : Heap) (wid did : Nat) : Except String Heap :=
  match hGet h did with
  | Option.some (.dict dm) =>
    match updLoopH fuel h wid [] dm with
    | .error e => .error e
    | .ok (h2, cleaned) =>
      match hGet h2 wid with
      | Option.some (.dict wm) =>
        .ok (hSet h2 wid (.dict (cleaned.foldl (fun m p => hAssocSet m p.1 p.2) wm)))
      | _ => .error "TypeError: weights target is not a dict"
  | _ => .error "TypeError: delta is not a dict"

/-- Store-level pick for `random.choices(keys, weights)[0]`. -/
def weightedPickH (pairs : List (HVal × Int)) (r : Int) : HVal :=
  match pairs with
  | [] => HVal.none
  | (k, w) :: rest => if r < w then k else weightedPickH rest (r - w)

/-- Store-level `get_choice`: reads only (no cell is ever written); the
returned value may be a reference into the document. -/
def get_choiceH (h : Heap) (option : HVal) (rootId : Nat) (value : HVal) (rng : Rng) :
    Except String (HVal × Rng) :=
  match hGet h rootId with
  | Option.some (.dict m) =>
    match hAssocFind m option with
    | Option.none => .ok (value, rng)
    | Option.some v =>
      match v with
      | .ref id =>
        match hGet h id with
        | Option.some (.list xs) =>
          match xs with
          | [] => .error "IndexError: Cannot choose from an empty sequence"
          | _ =>
            match draw rng with
            | (d, rng) => .ok (xs.getD (d % xs.length) HVal.none, rng)
        | Option.some (.dict wm) =>
          if wm.isEmpty then .ok (value, rng)
          else if wm.any (fun p => truthyH h p.2) then
            match wm.mapM (fun p => (toIntH p.2).map (fun w => (p.1, w))) with
            | .error e => .error e
            | .ok pairs =>
              let total : Int := pairs.foldl (fun acc p => acc + p.2) 0
              if total ≤ 0 then .error "ValueError: Total of weights must be greater than zero"
              else
                match draw rng with
                | (d, rng) => .ok (weightedPickH pairs ((d : Int) % total), rng)
          else .error "All options are weighted as zero."
        | Option.some (.hset _) => .ok (v, rng)
        | Option.none => .error "dangling reference"
      | _ => .ok (v, rng)
  | _ => .error "TypeError: get_choice root is not a dict"

/-- Store-level `Options.roll_percentage` (same spec model as the pure
one). -/
def roll_percentageH (v : HVal) (rng : Rng) : Except String (Bool × Rng) :=
  match toIntH v with
  | .error e => .error e
  | .ok p =>
    match draw rng with
    | (d, rng) => .ok ((((d % 100 : Nat) : Int) < p), rng)

/-- Store-level `set.add` for the valid-keys accumulator (scalar keys). -/
def setAddValH (s : List HVal) (v : HVal) : List HVal :=
  if s.any (fun x => x = v) then s else s ++ [v]

/-- Store-level overlay-application loop shared by the trigger cascade
(lines 584-588): target the copied document root or a named sub-dict,
and run the store-level merge.  Nothing is written back explicitly —
mutation through references does the write-back, which is exactly the
aliasing behaviour under study. -/
def applyCategoryDeltasH (fuel : Nat) : Heap → Nat → List (HVal × HVal) → Except String Heap
  | h, _, [] => .ok h
  | h, wid, (category_name, category_options) :: rest =>
    let stepped : Except String Heap :=
      match category_options with
      | .ref did =>
        match hGet h did with
        | Option.some (.dict _) =>
          if truthyH h category_name then
            match hGet h wid with
            | Option.some (.dict wm) =>
              match hAssocFind wm category_name with
              | Option.some (.ref tid) =>
                match hGet h tid with
                | Option.some (.dict _) => update_weightsH fuel h tid did
                | _ => .error "model boundary: category target is not a dict"
              | _ => .error "KeyError: option category missing from weights"
            | _ => .error "TypeError: weights is not a dict"
          else update_weightsH fuel h wid did
        | _ => .error "model boundary: category delta is not a dict"
      | _ => .error "model boundary: category delta is not a dict"
    match stepped with
    | .error e => .error e
    | .ok h2 => applyCategoryDeltasH fuel h2 wid rest

/-- Store-level per-trigger loop of `roll_triggers` (lines 573-592).
The iterated trigger list is the caller's `triggers` argument — in the
`roll_settings` call sites that list belongs to the *original* document,
not to the copy. -/
def applyTriggerSetsH (fuel : Nat) : Heap → Nat → List HVal → List HVal → Rng → Nat →
    Except String (Heap × List HVal × Rng)
  | h, _, [], vk, rng, _ => .ok (h, vk, rng)
  | h, wid, os :: rest, vk, rng, i =>
    let inner : Except String (Heap × List HVal × Rng) :=
      match os with
      | .ref oid =>
        match hGet h oid with
        | Option.some (.dict osm) => do
          let category := (hAssocFind osm (.str "option_category")).getD .none
          let tid ← (if truthyH h category then
              match hGet h wid with
              | Option.some (.dict wm) =>
                match hAssocFind wm category with
                | Option.some (.ref t) =>
                  match hGet h t with
                  | Option.some (.dict _) => .ok t
                  | _ => .error "model boundary: option_category target is not a dict"
                | _ => .error "KeyError: option_category missing from weights"
              | _ => .error "TypeError: weights is not a dict"
            else .ok wid : Except String Nat)
          let (key, rng) ← get_choiceH h (.str "option_name") oid .none rng
          let (trigger_result, rng) ← get_choiceH h (.str "option_result") oid .none rng
          let (result, rng) ← get_choiceH h key tid .none rng
          let h ← hDictSet h tid key result
          if hEqV h fuel result trigger_result then do
            let (pv, rng) ← get_choiceH h (.str "percentage") oid (.int 100) rng
            let (b, rng) ← roll_percentageH pv rng
            if b then
              match hAssocFind osm (.str "options") with
              | Option.some (.ref od) =>
                match hGet h od with
                | Option.some (.dict om) => do
                  let h ← applyCategoryDeltasH fuel h wid om
                  .ok (h, setAddValH vk key, rng)
                | _ => .error "AttributeError: options is not a dict"
              | _ => .error "KeyError: options"
            else .ok (h, setAddValH vk key, rng)
          else .ok (h, setAddValH vk key, rng)
        | _ => .error "AttributeError: trigger is not a dict"
      | _ => .error "AttributeError: trigger is not a dict"
    match inner with
    | .error _ =>
      .error ("Your trigger number " ++ toString (i + 1) ++ " is invalid. Please fix your triggers.")
    | .ok (h2, vk2, rng2) => applyTriggerSetsH fuel h2 wid rest vk2 rng2 (i + 1)

/-- Store-level `roll_triggers` (generate.py lines 570-593): deep-copy
the weights document, stamp the generator version into the copy, then
run the trigger cascade against the copy — while iterating the caller's
`triggers` list, whose cells stay in the original region. -/
def roll_triggersH (fuel : Nat) (gen_version : String) (h : Heap) (weights : HVal)
    (triggers : HVal) (valid_keys : List HVal) (rng : Rng) :
    Except String (Heap × HVal × List HVal × Rng) :=
  match dcV fuel h weights with
  | .error e => .error e
  | .ok (h, weights) =>
    match weights with
    | .ref wid =>
      match hDictSet h wid (.str "_Generator_Version") (.str gen_version) with
      | .error e => .error e
      | .ok h =>
        match triggers with
        | .ref tid =>
          match hGet h tid with
          | Option.some (.list ts) =>
            match applyTriggerSetsH fuel h wid ts valid_keys rng 0 with
            | .error e => .error e
            | .ok (h, vk, rng) => .ok (h, .ref wid, vk, rng)
          | _ => .error "model boundary: triggers is not a list"
        | _ => .error "model boundary: triggers is not a list"
    | _ => .error "TypeError: weights is not a dict"

/-- Keys of `w` survive into `w'`. -/
def KeysMono (w w' : Dic) : Prop :=
  ∀ k, keyIn w k = true → keyIn w' k = true

/-- A document holding a `-y` merge-tag key inside the chosen game's
section together with a root trigger that replaces that section
wholesale (an unprefixed top-level delta key) before the merge-tag scan
runs. -/
def c4Doc : Dic :=
  [(.str "watched", .str "go"),
   (.str "game", .str "Paper Mario: The Thousand-Year Door"),
   (.str "Paper Mario: The Thousand-Year Door", .dict [(.str "-y", .list [.int 1])]),
   (.str "triggers", .list [.dict [
      (.str "option_name", .str "watched"),
      (.str "option_result", .str "go"),
      (.str "options", .dict [(.str "", .dict [
        (.str "Paper Mario: The Thousand-Year Door", .dict [])])])]])]

/-- The failing input for the isolation claim: a document
`{watched: "go", triggers: [T1, T2]}` where both triggers watch
`watched` for result `"go"`; T1's options insert `x: [5]` (the list
object in cell 0, owned by T1's own options block), and T2's options
merge `+x: [6]`.  T1's insert aliases cell 0 into the deep copy, so
T2's `+x` extend mutates cell 0 — a cell of the *original* document. -/
def c9Heap : Heap := Heap.mk
  [(0, .list [.int 5]),
   (1, .dict [(.str "x", .ref 0)]),
   (2, .dict [(.str "", .ref 1)]),
   (3, .dict [(.str "option_name", .str "watched"), (.str "option_result", .str "go"),
              (.str "options", .ref 2)]),
   (4, .list [.int 6]),
   (5, .dict [(.str "+x", .ref 4)]),
   (6, .dict [(.str "", .ref 5)]),
   (7, .dict [(.str "option_name", .str "watched"), (.str "option_result", .str "go"),
              (.str "options", .ref 6)]),
   (8, .list [.ref 3, .ref 7]),
   (9, .dict [(.str "watched", .str "go"), (.str "triggers", .ref 8)])]
  10

/-! Helper lemmas about the dict primitives. -/

mutual
/-- Reflexivity of the embedded Python equality. -/
theorem valBeq_refl : ∀ v, valBeq v v = true
  | .none => rfl
  | .bool b => by simp [valBeq]
  | .int n => by simp [valBeq]
  | .str s => by simp [valBeq]
  | .list xs => by simp [valBeq]; exact valListBeq_refl xs
  | .vset xs => by simp [valBeq]; exact valListBeq_refl xs
  | .dict m => by simp [valBeq]; exact valPairsBeq_refl m
termination_by structural v => v

/-- Reflexivity of the list comparison. -/
theorem valListBeq_refl : ∀ xs, valListBeq xs xs = true
  | [] => rfl
  | x :: xs => by simp [valListBeq]; exact ⟨valBeq_refl x, valListBeq_refl xs⟩
termination_by structural v => v

/-- Reflexivity of the dict-entry comparison. -/
theorem valPairsBeq_refl : ∀ m, valPairsBeq m m = true
  | [] => rfl
  | (k, v) :: m => by
      simp [valPairsBeq]; exact ⟨⟨valBeq_refl k, valBeq_refl v⟩, valPairsBeq_refl m⟩
termination_by structural v => v
end

/-- A value equal (in the Python sense) to a string is that string. -/
theorem valBeq_str_inv : ∀ (x : Val) (s : String), valBeq x (.str s) = true → x = Val.str s := by
  intro x s h
  cases x <;> simp [valBeq] at h
  rw [h]

/-- A key with a binding is a member. -/
theorem keyIn_of_lookupD {d : Dic} {k v : Val} (h : lookupD d k = Option.some v) :
    keyIn d k = true := by
  induction d with
  | nil => simp [lookupD] at h
  | cons p rest ih =>
    unfold lookupD at h
    by_cases hb : valBeq p.1 k
    · simp [keyIn, hb]
    · simp [hb] at h
      have := ih h
      simp [keyIn, hb] at this ⊢
      simpa [keyIn] using this

/-- Setting the same key twice keeps only the last value. -/
theorem dictSet_dictSet (d : Dic) (k v v' : Val) :
    dictSet (dictSet d k v) k v' = dictSet d k v' := by
  induction d with
  | nil => simp [dictSet, valBeq_refl]
  | cons p rest ih =>
    by_cases hb : valBeq p.1 k
    · simp [dictSet, hb]
    · simp [dictSet, hb, ih]

/-- Existing keys survive a `dictSet`. -/
theorem keyIn_dictSet_of_keyIn {d : Dic} {k : Val} (k' v' : Val)
    (h : keyIn d k = true) : keyIn (dictSet d k' v') k = true := by
  induction d with
  | nil => simp [keyIn] at h
  | cons p rest ih =>
    by_cases hb : valBeq p.1 k'
    · simpa [dictSet, hb, keyIn] using h
    · simp [keyIn] at h
      rcases h with h | h
      · simp [dictSet, hb, keyIn, h]
      · have := ih (by simpa [keyIn] using h)
        simp [dictSet, hb, keyIn] at this ⊢
        exact Or.inr (by simpa [keyIn] using this)

/-- Existing keys survive a `dictUpdate`. -/
theorem keyIn_dictUpdate_of_keyIn {d2 : Dic} : ∀ {d : Dic} {k : Val},
    keyIn d k = true → keyIn (dictUpdate d d2) k = true := by
  induction d2 with
  | nil => intro d k h; simpa [dictUpdate] using h
  | cons p rest ih =>
    intro d k h
    simpa [dictUpdate] using ih (keyIn_dictSet_of_keyIn p.1 p.2 h)

/-- Removing an element absent from the list raises. -/
theorem removeFirst_of_all_ne {xs : List Val} {v : Val}
    (h : xs.all (fun x => !(valBeq x v)) = true) :
    removeFirst xs v = .error "ValueError: list.remove(x): x not in list" := by
  induction xs with
  | nil => rfl
  | cons x xs ih =>
    rw [List.all_cons, Bool.and_eq_true] at h
    have h1 : valBeq x v = false := by simpa using h.1
    simp [removeFirst, h1, ih h.2, Except.map]

/-- Python `lstrip("+-")` leaves nothing strippable at the front. -/
theorem pyLstripPM_no_pm (k : String) :
    pyStartsWith (pyLstripPM k) '+' = false ∧ pyStartsWith (pyLstripPM k) '-' = false := by
  unfold pyLstripPM pyStartsWith
  rcases hd : k.data.dropWhile (fun c => c == '+' || c == '-') with _ | ⟨c, rest⟩
  · simp
  · have := List.head?_dropWhile_not (fun c => c == '+' || c == '-') k.data
    rw [hd] at this
    simp at this
    simp [this]

/-- Python `lstrip("+-")` is idempotent. -/
theorem pyLstripPM_idem (k : String) : pyLstripPM (pyLstripPM k) = pyLstripPM k := by
  unfold pyLstripPM
  congr 1
  rcases hd : k.data.dropWhile (fun c => c == '+' || c == '-') with _ | ⟨c, rest⟩
  · simp
  · have := List.head?_dropWhile_not (fun c => c == '+' || c == '-') k.data
    rw [hd] at this
    simp at this
    have hc : (c == '+' || c == '-') = false := by simp [this.1, this.2]
    rw [List.dropWhile_cons, hc]
    simp

/-- Characterization of the distinct-count test in `check_names`. -/
theorem dedup_length_iff {α} [DecidableEq α] (l : List α) :
    l.dedup.length = l.length ↔ l.Nodup := by
  constructor
  · intro h
    have hs : List.Sublist l.dedup l := l.dedup_sublist
    have he : l.dedup = l := hs.eq_of_length h
    rw [← he]
    exact l.nodup_dedup
  · intro h
    rw [List.dedup_eq_self.mpr h]

/-! Claim theorems. -/

/-- C1 counterexample: for participant index 3, first occurrence, the
raw template `"%%Player%player%%%"` does NOT resolve to `"Player3"`.
The leftmost-first `%%` split grabs the closing `%` of `%player%`
together with the first `%` of the final escape, leaving the segments
`["", "Player%player", "%"]`, so no token survives and the display name
is `"%Player%player%%"`. -/
theorem C1_counterexample :
    handle_name "%%Player%player%%%" 3 [] =
      .ok ("%Player%player%%", [("%%player%player%%%", 1)]) ∧
    "%Player%player%%" ≠ "Player3" := by
  exact ⟨rfl, by decide⟩

/-- C1 (amended): `handle_name` on the raw template
`"%%Player%player%%%"` yields `"%Player%player%%"` for participant 3 on
first occurrence, and the identical raw name submitted again (count 2)
yields the same display name, since the `%%` split destroys the
`%player%` token and the template holds no `%number%` token. -/
theorem C1_amended_template_result :
    handle_name "%%Player%player%%%" 3 [] =
      .ok ("%Player%player%%", [("%%player%player%%%", 1)]) ∧
    handle_name "%%Player%player%%%" 4 [("%%player%player%%%", 1)] =
      .ok ("%Player%player%%", [("%%player%player%%%", 2)]) := by
  exact ⟨rfl, rfl⟩

/-- C7 counterexample: with post-increment count 2 (so the claim's
`n > 1` branch would substitute `2`), the token `%NUMBER%` is not
replaced at all — `handle_name` only rewrites the lowercase `%number%`
and `%player%` tokens into brace fields, so `"A%NUMBER%B"` comes back
verbatim instead of the claimed `"A2B"`. -/
theorem C7_counterexample :
    handle_name "A%NUMBER%B" 1 [("a%number%b", 1)] =
      .ok ("A%NUMBER%B", [("a%number%b", 2)]) ∧
    "A%NUMBER%B" ≠ "A2B" := by
  exact ⟨rfl, by decide⟩

/-- C7 (amended): in `handle_name`'s substitution the lowercase percent
tokens `%number%`/`%player%` resolve to the count and participant index;
the uppercase forms `%NUMBER%`/`%PLAYER%` are NOT percent tokens and
pass through verbatim; the conditional values (`n` if `n > 1` else
empty, index if `> 1` else empty) are bound to the brace keys, so only
literal `{NUMBER}`/`{PLAYER}` fields in the raw name resolve to them. -/
theorem C7_amended_token_substitution : ∀ (number player : Nat),
    substituteName "%number%" number player = .ok (toString number) ∧
    substituteName "%player%" number player = .ok (toString player) ∧
    substituteName "%NUMBER%" number player = .ok "%NUMBER%" ∧
    substituteName "%PLAYER%" number player = .ok "%PLAYER%" ∧
    substituteName "{NUMBER}" number player =
      .ok (if number > 1 then toString number else "") ∧
    substituteName "{PLAYER}" number player =
      .ok (if player > 1 then toString player else "") := by
  intro number player
  refine ⟨?_, ?_, rfl, rfl, ?_, ?_⟩
  · have h : substituteName "%number%" number player = .ok (toString number ++ "") := rfl
    rw [h]
    simp
  · have h : substituteName "%player%" number player = .ok (toString player ++ "") := rfl
    rw [h]
    simp
  · have h : substituteName "{NUMBER}" number player =
        .ok ((if number > 1 then toString number else "") ++ "") := rfl
    rw [h]
    simp
  · have h : substituteName "{PLAYER}" number player =
        .ok ((if player > 1 then toString player else "") ++ "") := rfl
    rw [h]
    simp

/-- C2: when the value stored under a key is a non-empty weighted map
whose weights are all zero, `get_choice` raises the all-zero diagnostic
for every RNG stream (it never returns a value); when the map is empty
it returns the supplied default instead. -/
theorem C2_get_choice_zero_weights : ∀ (k : Val) (root : Dic) (value : Val) (rng : Rng) (m : Dic),
    lookupD root k = Option.some (.dict m) →
    (m ≠ [] → (∀ p ∈ m, p.2 = Val.int 0) →
      get_choice k root value rng =
        .error ("All options specified in \"" ++ renderVal k ++ "\" are weighted as zero.")) ∧
    (m = [] → get_choice k root value rng = .ok (value, rng)) := by
  intro k root value rng m hlk
  constructor
  · intro hne hzero
    have hempty : m.isEmpty = false := by
      cases m with
      | nil => exact absurd rfl hne
      | cons p rest => rfl
    have hany : (m.any (fun p => pyTruthy p.2)) = false := by
      rw [List.any_eq_false]
      intro p hp
      rw [hzero p hp]
      simp [pyTruthy]
    unfold get_choice
    rw [hlk]
    dsimp only
    rw [hempty, hany]
    simp
  · intro he
    subst he
    unfold get_choice
    rw [hlk]
    dsimp only
    simp [List.isEmpty]

/-- C2 witness: a two-entry all-zero weighted map raises; an empty map
returns the default. -/
theorem C2_witness :
    get_choice (.str "opt") [(.str "opt", .dict [(.str "a", .int 0), (.str "b", .int 0)])]
      Val.none [] =
      .error "All options specified in \"opt\" are weighted as zero." ∧
    get_choice (.str "opt") [(.str "opt", .dict [])] (.int 9) [3] = .ok (.int 9, [3]) := by
  constructor
  · have h := (C2_get_choice_zero_weights (.str "opt")
      [(.str "opt", .dict [(.str "a", .int 0), (.str "b", .int 0)])] Val.none []
      [(.str "a", .int 0), (.str "b", .int 0)] rfl).1
    exact h (by simp) (by simp)
  · have h := (C2_get_choice_zero_weights (.str "opt")
      [(.str "opt", .dict [])] (.int 9) [3] [] rfl).2
    exact h rfl

/-- C3: the merge engine on list values — `+x: ys` appends to an
existing list under `x`, `-x` removes the named elements (first match
each), and removing an element absent from the base list raises
`ValueError`.  Stated over an arbitrary base document holding the
claim's lists under `"x"`. -/
theorem C3_update_weights_lists :
    (∀ (w : Dic) (xs ys : List Val), lookupD w (.str "x") = Option.some (.list xs) →
      update_weights w [(.str "+x", .list ys)] =
        .ok (dictSet w (.str "x") (.list (xs ++ ys)))) ∧
    (∀ (w : Dic), lookupD w (.str "x") = Option.some (.list [.int 1, .int 2]) →
      update_weights w [(.str "-x", .list [.int 1])] =
        .ok (dictSet w (.str "x") (.list [.int 2]))) ∧
    (∀ (w : Dic) (xs : List Val) (v : Val), lookupD w (.str "x") = Option.some (.list xs) →
      xs.all (fun x => !(valBeq x v)) = true →
      update_weights w [(.str "-x", .list [v])] =
        .error "ValueError: list.remove(x): x not in list") := by
  refine ⟨?_, ?_, ?_⟩
  · intro w xs ys hx
    have hkey : keyIn w (Val.str "x") = true := keyIn_of_lookupD hx
    have e1 : pyLstripPM "+x" = "x" := rfl
    have e2 : pyStartsWith "+x" '+' = true := rfl
    simp [update_weights, updLoop, e1, e2, hkey, hx, mergeCombine, dictUpdate, dictSet_dictSet]
  · intro w hx
    have hkey : keyIn w (Val.str "x") = true := keyIn_of_lookupD hx
    have e1 : pyLstripPM "-x" = "x" := rfl
    have e2 : pyStartsWith "-x" '+' = false := rfl
    have e3 : pyStartsWith "-x" '-' = true := rfl
    have e4 : List.foldlM removeFirst [Val.int 1, Val.int 2] [Val.int 1] =
        Except.ok [Val.int 2] := rfl
    simp [update_weights, updLoop, e1, e2, e3, e4, hkey, hx, removeCombine, Except.map,
      dictUpdate, dictSet_dictSet]
  · intro w xs v hx hne
    have hkey : keyIn w (Val.str "x") = true := keyIn_of_lookupD hx
    have e1 : pyLstripPM "-x" = "x" := rfl
    have e2 : pyStartsWith "-x" '+' = false := rfl
    have e3 : pyStartsWith "-x" '-' = true := rfl
    have hrm : List.foldlM removeFirst xs [v] =
        (.error "ValueError: list.remove(x): x not in list" : Except String (List Val)) := by
      simp [List.foldlM, removeFirst_of_all_ne hne]
    simp [update_weights, updLoop, e1, e2, e3, hrm, hkey, hx, removeCombine, Except.map]

/-- C3 witness: the claim's concrete instances — `[3] + [1,2] = [3,1,2]`,
`[1,2] - [1] = [2]`, and removing `1` from `[2]` raises. -/
theorem C3_witness :
    update_weights [(.str "x", .list [.int 3])] [(.str "+x", .list [.int 1, .int 2])] =
      .ok [(.str "x", .list [.int 3, .int 1, .int 2])] ∧
    update_weights [(.str "x", .list [.int 1, .int 2])] [(.str "-x", .list [.int 1])] =
      .ok [(.str "x", .list [.int 2])] ∧
    update_weights [(.str "x", .list [.int 2])] [(.str "-x", .list [.int 1])] =
      .error "ValueError: list.remove(x): x not in list" := by
  refine ⟨?_, ?_, ?_⟩
  · exact C3_update_weights_lists.1 [(.str "x", .list [.int 3])] [.int 3]
      [.int 1, .int 2] rfl
  · exact C3_update_weights_lists.2.1 [(.str "x", .list [.int 1, .int 2])] rfl
  · exact C3_update_weights_lists.2.2 [(.str "x", .list [.int 2])] [.int 2] (.int 1)
      rfl (by decide)

/-- C10: a `+`/`-`-prefixed delta key whose stripped name is absent
from the base neither fails nor is skipped: every leading `+`/`-` is
stripped (`"+-+x"` targets `"x"`), and the delta value is plainly
inserted under the stripped name, exactly as the unprefixed key would
be. -/
theorem C10_absent_prefixed_key_inserts :
    pyLstripPM "+-+x" = "x" ∧
    ∀ (w : Dic) (k : String) (v : Val),
      (pyStartsWith k '+' || pyStartsWith k '-') = true →
      keyIn w (.str (pyLstripPM k)) = false →
      update_weights w [(.str k, v)] = .ok (dictSet w (.str (pyLstripPM k)) v) ∧
      update_weights w [(.str k, v)] = update_weights w [(.str (pyLstripPM k), v)] := by
  refine ⟨rfl, ?_⟩
  intro w k v _hpm hkey
  have hleft : update_weights w [(.str k, v)] = .ok (dictSet w (.str (pyLstripPM k)) v) := by
    simp [update_weights, updLoop, hkey, dictUpdate]
  refine ⟨hleft, ?_⟩
  rw [hleft]
  have hno := pyLstripPM_no_pm k
  simp [update_weights, updLoop, pyLstripPM_idem, hkey, hno.1, hno.2, dictUpdate]

/-- C10 witness: inserting under `"+-+x"` with `"x"` absent lands the
value under `"x"`, matching the unprefixed insert. -/
theorem C10_witness :
    update_weights [(.str "y", .int 0)] [(.str "+-+x", .int 5)] =
      .ok [(.str "y", .int 0), (.str "x", .int 5)] ∧
    update_weights [(.str "y", .int 0)] [(.str "+-+x", .int 5)] =
      update_weights [(.str "y", .int 0)] [(.str "x", .int 5)] := by
  have h := C10_absent_prefixed_key_inserts.2 [(.str "y", .int 0)] "+-+x" (.int 5)
    (by decide) (by decide)
  exact ⟨h.1, h.2⟩

/-- C6: the post-naming gate of `main` — if any two participants'
resolved display names are equal up to case, the run fails with the
name-collision error; a run that passes the gate has pairwise distinct
case-folded display names. -/
theorem C6_name_collision_gate : ∀ (names : List String),
    ((∃ i j, i < names.length ∧ j < names.length ∧ i ≠ j ∧
        pyLower (names.getD i "") = pyLower (names.getD j "")) →
      ∃ e, check_names names = .error e) ∧
    (check_names names = .ok () →
      List.Pairwise (fun a b => pyLower a ≠ pyLower b) names) := by
  intro names
  have hok : check_names names = .ok () ↔
      ((names.map pyLower).dedup.length = names.length) := by
    unfold check_names
    by_cases hc : (names.map pyLower).dedup.length = names.length
    · simp [hc]
    · simp [hc]
  have hnd : ((names.map pyLower).dedup.length = names.length) ↔
      (names.map pyLower).Nodup := by
    conv_lhs => rw [show names.length = (names.map pyLower).length by simp]
    exact dedup_length_iff _
  have part2 : check_names names = .ok () →
      List.Pairwise (fun a b => pyLower a ≠ pyLower b) names := by
    intro h
    have hn : (names.map pyLower).Nodup := hnd.mp (hok.mp h)
    exact (List.pairwise_map).mp hn
  refine ⟨?_, part2⟩
  rintro ⟨i, j, hi, hj, hij, heq⟩
  cases hcn : check_names names with
  | error e => exact ⟨e, rfl⟩
  | ok u =>
    cases u
    exfalso
    have hp := part2 hcn
    rcases Nat.lt_or_ge i j with hlt | hge
    · have hd := (List.pairwise_iff_getElem.mp hp) i j hi hj hlt
      rw [List.getD_eq_getElem names "" hi, List.getD_eq_getElem names "" hj] at heq
      exact hd heq
    · have hlt : j < i := Nat.lt_of_le_of_ne hge (fun e => hij e.symm)
      have hd := (List.pairwise_iff_getElem.mp hp) j i hj hi hlt
      rw [List.getD_eq_getElem names "" hi, List.getD_eq_getElem names "" hj] at heq
      exact hd heq.symm

/-- C6 witness: `"Bob"` and `"bob"` collide; `"Bob"` and `"Mario"` pass. -/
theorem C6_witness :
    (∃ e, check_names ["Bob", "bob"] = .error e) ∧
    check_names ["Bob", "Mario"] = .ok () := by
  constructor
  · exact (C6_name_collision_gate ["Bob", "bob"]).1
      ⟨0, 1, by decide, by decide, by decide, by decide⟩
  · rfl

/-- C8 counterexample: `palace_skip` is registered non-weightable in the
concrete context, the meta document supplies a weighted (mapping) value
for it, and `roll_meta_option` does NOT fail — it returns the raw
mapping unchanged. -/
theorem C8_counterexample :
    ((defaultCtx.world_types.lookup "Paper Mario: The Thousand-Year Door").map
      (fun wt => (wt.options_dataclass.lookup "palace_skip").map
        (fun o => o.supports_weighting))) = Option.some (Option.some false) ∧
    roll_meta_option defaultCtx (.str "palace_skip")
      (.str "Paper Mario: The Thousand-Year Door")
      [(.str "palace_skip", .dict [(.str "a", .int 1), (.str "b", .int 1)])] [] =
      .ok (.dict [(.str "a", .int 1), (.str "b", .int 1)], []) := by
  exact ⟨rfl, rfl⟩

/-- C8 (amended): for a registered game, `roll_meta_option` fails
exactly when the game's option set lacks the key; an option declared
non-weightable does not make a weighted meta value fail — the raw stored
value is returned unchanged. -/
theorem C8_amended_meta_option : ∀ (ctx : GenContext) (g : String) (wt : WorldType)
    (k : String) (cd : Dic) (rng : Rng),
    g ≠ "" →
    ctx.world_types.lookup g = Option.some wt →
    ((wt.options_dataclass.lookup k = Option.none →
      roll_meta_option ctx (.str k) (.str g) cd rng =
        .error ("Error generating meta option " ++ k ++ " for " ++ g ++ ".")) ∧
     (∀ desc v, wt.options_dataclass.lookup k = Option.some desc →
      desc.supports_weighting = false →
      lookupD cd (.str k) = Option.some v →
      roll_meta_option ctx (.str k) (.str g) cd rng = .ok (v, rng))) := by
  intro ctx g wt k cd rng hg hwt
  constructor
  · intro hmiss
    simp [roll_meta_option, pyTruthy, hg, hwt, hmiss, renderVal]
  · intro desc v hdesc hnw hval
    simp [roll_meta_option, pyTruthy, hg, hwt, hdesc, hnw, hval]

/-- C8 witness: a registered game without the option key fails; a
non-weightable option with a stored weighted value returns it raw. -/
theorem C8_witness :
    roll_meta_option defaultCtx (.str "missing_option")
      (.str "Paper Mario: The Thousand-Year Door") [] [] =
      .error "Error generating meta option missing_option for Paper Mario: The Thousand-Year Door." ∧
    roll_meta_option defaultCtx (.str "palace_skip")
      (.str "Paper Mario: The Thousand-Year Door")
      [(.str "palace_skip", .dict [(.str "a", .int 1)])] [2] =
      .ok (.dict [(.str "a", .int 1)], [2]) := by
  constructor
  · exact (C8_amended_meta_option defaultCtx "Paper Mario: The Thousand-Year Door"
      (WorldType.mk [("chapter_clears", plainOption true (.int 7)),
        ("palace_skip", plainOption false (.bool false))]) "missing_option" [] []
      (by decide) rfl).1 rfl
  · exact (C8_amended_meta_option defaultCtx "Paper Mario: The Thousand-Year Door"
      (WorldType.mk [("chapter_clears", plainOption true (.int 7)),
        ("palace_skip", plainOption false (.bool false))]) "palace_skip"
      [(.str "palace_skip", .dict [(.str "a", .int 1)])] [2]
      (by decide) rfl).2 (plainOption false (.bool false)) (.dict [(.str "a", .int 1)])
      rfl rfl rfl

/-- C9 (code evaluated at the failing input): `roll_triggers`, run on
the document `{watched: "go", triggers: [T1, T2]}` of `c9Heap` exactly
as `roll_settings` calls it (`triggers = weights["triggers"]`), mutates
heap cell 0 — the list `[5]` inside T1's own `options` block of the
*original* document — into `[5, 6]`: T1's plain insert aliases the
original list into the deep copy and T2's `+x` merge extends it in
place.  The input document is therefore not left unchanged. -/
theorem C9_roll_triggers_mutates_input :
    hGet c9Heap 0 = Option.some (.list [.int 5]) ∧
    ((roll_triggersH 100 "0.6.3" c9Heap (.ref 9) (.ref 8) [.str "triggers"] []).map
      (fun r => hGet r.1 0)) = .ok (Option.some (.list [.int 5, .int 6])) := by
  exact ⟨rfl, rfl⟩

/-! Key-monotonicity of the layering transforms: no stage of the
pipeline ever removes a top-level key of the weights document, which is
what makes the merge-tag scan inescapable. -/

/-- Reduction of a failing `Except` bind (simp support for the
inversion proofs below). -/
@[simp] theorem exceptBind_error {α β : Type} (e : String) (f : α → Except String β) :
    (Except.error e : Except String α) >>= f = Except.error e := rfl

/-- Reduction of a successful `Except` bind. -/
@[simp] theorem exceptBind_ok {α β : Type} (a : α) (f : α → Except String β) :
    (Except.ok a : Except String α) >>= f = f a := rfl

/-- Key survival is reflexive. -/
theorem keysMono_refl (w : Dic) : KeysMono w w := fun _ h => h

/-- Key survival composes. -/
theorem keysMono_trans {a b c : Dic} (h1 : KeysMono a b) (h2 : KeysMono b c) :
    KeysMono a c := fun k h => h2 k (h1 k h)

/-- Setting a key never removes keys. -/
theorem keysMono_dictSet (w : Dic) (k v : Val) : KeysMono w (dictSet w k v) :=
  fun _ h => keyIn_dictSet_of_keyIn k v h

/-- Updating with a dict never removes keys. -/
theorem keysMono_dictUpdate (w d2 : Dic) : KeysMono w (dictUpdate w d2) :=
  fun _ h => keyIn_dictUpdate_of_keyIn h

/-- The `update_weights` loop never removes base keys. -/
theorem updLoop_keysMono : ∀ (d : Dic) (w c w' c' : Dic),
    updLoop w c d = .ok (w', c') → KeysMono w w' := by
  intro d
  induction d with
  | nil =>
    intro w c w' c' h
    simp [updLoop] at h
    rw [← h.1]
    exact keysMono_refl w
  | cons p rest ih =>
    intro w c w' c' h
    obtain ⟨okey, nv⟩ := p
    cases okey with
    | str option =>
      simp only [updLoop] at h
      by_cases h1 : (pyStartsWith option '+' &&
          keyIn w (Val.str (pyLstripPM option))) = true
      · rw [if_pos h1] at h
        cases hm : mergeCombine (pyLstripPM option) nv
            ((lookupD w (Val.str (pyLstripPM option))).getD .none) with
        | error e => rw [hm] at h; exact absurd h (by simp)
        | ok pr =>
          obtain ⟨merged, inPlace⟩ := pr
          rw [hm] at h
          dsimp only at h
          cases inPlace with
          | true =>
            simp only [if_true] at h
            exact keysMono_trans
              (keysMono_dictSet w (Val.str (pyLstripPM option)) merged) (ih _ _ _ _ h)
          | false =>
            simp only [Bool.false_eq_true, if_false] at h
            exact ih _ _ _ _ h
      · rw [if_neg h1] at h
        by_cases h2 : (pyStartsWith option '-' &&
            keyIn w (Val.str (pyLstripPM option))) = true
        · rw [if_pos h2] at h
          cases hm : removeCombine (pyLstripPM option) nv
              ((lookupD w (Val.str (pyLstripPM option))).getD .none) with
          | error e => rw [hm] at h; exact absurd h (by simp)
          | ok pr =>
            obtain ⟨merged, inPlace⟩ := pr
            rw [hm] at h
            dsimp only at h
            cases inPlace with
            | true =>
              simp only [if_true] at h
              exact keysMono_trans
                (keysMono_dictSet w (Val.str (pyLstripPM option)) merged) (ih _ _ _ _ h)
            | false =>
              simp only [Bool.false_eq_true, if_false] at h
              exact ih _ _ _ _ h
        · rw [if_neg h2] at h
          exact ih _ _ _ _ h
    | none => exact absurd h (by simp [updLoop])
    | bool b => exact absurd h (by simp [updLoop])
    | int n => exact absurd h (by simp [updLoop])
    | list xs => exact absurd h (by simp [updLoop])
    | vset xs => exact absurd h (by simp [updLoop])
    | dict m => exact absurd h (by simp [updLoop])

/-- The function `update_weights` never removes base keys. -/
theorem update_weights_keysMono {w d w' : Dic}
    (h : update_weights w d = .ok w') : KeysMono w w' := by
  unfold update_weights at h
  cases hl : updLoop w [] d with
  | error e => rw [hl] at h; exact absurd h (by simp)
  | ok pr =>
    obtain ⟨w2, cleaned⟩ := pr
    rw [hl] at h
    simp only [Except.ok.injEq] at h
    rw [← h]
    exact keysMono_trans (updLoop_keysMono d w [] w2 cleaned hl)
      (keysMono_dictUpdate w2 cleaned)

/-- The overlay-application loop never removes top-level keys. -/
theorem applyCategoryDeltas_keysMono : ∀ (entries : List (Val × Val)) (w w' : Dic),
    applyCategoryDeltas w entries = .ok w' → KeysMono w w' := by
  intro entries
  induction entries with
  | nil =>
    intro w w' h
    simp [applyCategoryDeltas] at h
    rw [← h]
    exact keysMono_refl w
  | cons p rest ih =>
    intro w w' h
    obtain ⟨category_name, category_options⟩ := p
    simp only [applyCategoryDeltas] at h
    cases category_options with
    | dict deltas =>
      dsimp only at h
      by_cases ht : pyTruthy category_name = true
      · rw [if_pos ht] at h
        cases hl : lookupD w category_name with
        | none => rw [hl] at h; exact absurd h (by simp)
        | some sub =>
          rw [hl] at h
          cases sub with
          | dict subm =>
            dsimp only at h
            cases hu : update_weights subm deltas with
            | error e => rw [hu] at h; simp [Except.map] at h
            | ok sub2 =>
              rw [hu] at h
              simp only [Except.map] at h
              exact keysMono_trans (keysMono_dictSet w category_name (.dict sub2))
                (ih _ _ h)
          | none => exact absurd h (by simp)
          | bool b => exact absurd h (by simp)
          | int n => exact absurd h (by simp)
          | str s => exact absurd h (by simp)
          | list xs => exact absurd h (by simp)
          | vset xs => exact absurd h (by simp)
      · rw [if_neg ht] at h
        cases hu : update_weights w deltas with
        | error e => rw [hu] at h; exact absurd h (by simp)
        | ok w2 =>
          rw [hu] at h
          exact keysMono_trans (update_weights_keysMono hu) (ih _ _ h)
    | none => exact absurd h (by simp)
    | bool b => exact absurd h (by simp)
    | int n => exact absurd h (by simp)
    | str s => exact absurd h (by simp)
    | list xs => exact absurd h (by simp)
    | vset xs => exact absurd h (by simp)

/-- The linked-options loop never removes top-level keys. -/
theorem applyLinkedSets_keysMono : ∀ (sets : List Val) (w w' : Dic) (rng rng' : Rng),
    applyLinkedSets w sets rng = .ok (w', rng') → KeysMono w w' := by
  intro sets
  induction sets with
  | nil =>
    intro w w' rng rng' h
    simp [applyLinkedSets] at h
    rw [← h.1]
    exact keysMono_refl w
  | cons os rest ih =>
    intro w w' rng rng' h
    cases os with
    | dict option_set =>
      simp only [applyLinkedSets] at h
      by_cases hn : keyIn option_set (Val.str "name") = true
      · rw [hn] at h
        simp only [Bool.not_true, Bool.false_eq_true, if_false] at h
        cases hlp : lookupD option_set (Val.str "percentage") with
        | none => rw [hlp] at h; exact absurd h (by simp)
        | some pv =>
          rw [hlp] at h
          dsimp only at h
          cases hrp : roll_percentage pv rng with
          | error e => rw [hrp] at h; simp at h
          | ok pr =>
            obtain ⟨b, rng2⟩ := pr
            rw [hrp] at h
            simp only [exceptBind_ok] at h
            cases b with
            | false =>
              simp only [Bool.false_eq_true, if_false] at h
              exact ih _ _ _ _ h
            | true =>
              simp only [if_true] at h
              cases hlo : lookupD option_set (Val.str "options") with
              | none => rw [hlo] at h; exact absurd h (by simp)
              | some ov =>
                rw [hlo] at h
                cases ov with
                | dict new_options =>
                  dsimp only at h
                  cases hcd : applyCategoryDeltas w new_options with
                  | error e => rw [hcd] at h; exact absurd h (by simp [Except.bind])
                  | ok w2 =>
                    rw [hcd] at h
                    simp only [exceptBind_ok] at h
                    exact keysMono_trans (applyCategoryDeltas_keysMono _ _ _ hcd)
                      (ih _ _ _ _ h)
                | none => exact absurd h (by simp)
                | bool b2 => exact absurd h (by simp)
                | int n => exact absurd h (by simp)
                | str s => exact absurd h (by simp)
                | list xs => exact absurd h (by simp)
                | vset xs => exact absurd h (by simp)
      · simp only [Bool.not_eq_true] at hn
        rw [hn] at h
        exact absurd h (by simp)
    | none => exact absurd h (by simp [applyLinkedSets])
    | bool b => exact absurd h (by simp [applyLinkedSets])
    | int n => exact absurd h (by simp [applyLinkedSets])
    | str s => exact absurd h (by simp [applyLinkedSets])
    | list xs => exact absurd h (by simp [applyLinkedSets])
    | vset xs => exact absurd h (by simp [applyLinkedSets])

/-- The function `roll_linked_options` never removes top-level keys. -/
theorem roll_linked_options_keysMono {w w' : Dic} {rng rng' : Rng}
    (h : roll_linked_options w rng = .ok (w', rng')) : KeysMono w w' := by
  unfold roll_linked_options at h
  cases hl : lookupD w (Val.str "linked_options") with
  | none => rw [hl] at h; exact absurd h (by simp)
  | some v =>
    rw [hl] at h
    cases v with
    | list sets => exact applyLinkedSets_keysMono sets w w' rng rng' h
    | none => exact absurd h (by simp)
    | bool b => exact absurd h (by simp)
    | int n => exact absurd h (by simp)
    | str s => exact absurd h (by simp)
    | vset xs => exact absurd h (by simp)
    | dict m => exact absurd h (by simp)

/-- One trigger step never removes top-level keys. -/
theorem triggerStep_keysMono : ∀ (w : Dic) (os : Val) (vk : List Val) (rng : Rng)
    (w2 : Dic) (vk2 : List Val) (rng2 : Rng),
    triggerStep w os vk rng = .ok (w2, vk2, rng2) → KeysMono w w2 := by
  intro w os vk rng w2 vk2 rng2 hin
  cases os with
  | dict option_set =>
    unfold triggerStep at hin
    dsimp only at hin
    cases hgt : getTarget w ((lookupD option_set (.str "option_category")).getD .none) with
    | error e => rw [hgt] at hin; simp at hin
    | ok t =>
      rw [hgt] at hin
      simp only [exceptBind_ok] at hin
      cases hg1 : get_choice (.str "option_name") option_set .none rng with
      | error e => rw [hg1] at hin; exact absurd hin (by simp)
      | ok p1 =>
        obtain ⟨key, rngA⟩ := p1
        rw [hg1] at hin
        simp only [exceptBind_ok] at hin
        cases hg2 : get_choice (.str "option_result") option_set .none rngA with
        | error e => rw [hg2] at hin; exact absurd hin (by simp)
        | ok p2 =>
          obtain ⟨trigger_result, rngB⟩ := p2
          rw [hg2] at hin
          simp only [exceptBind_ok] at hin
          cases hg3 : get_choice key t .none rngB with
          | error e => rw [hg3] at hin; exact absurd hin (by simp)
          | ok p3 =>
            obtain ⟨result, rngC⟩ := p3
            rw [hg3] at hin
            simp only [exceptBind_ok] at hin
            have hmid : KeysMono w
                (putTarget w ((lookupD option_set (.str "option_category")).getD .none)
                  (dictSet t key result)) := by
              unfold putTarget
              unfold getTarget at hgt
              by_cases hcat : pyTruthy ((lookupD option_set
                  (.str "option_category")).getD .none) = true
              · rw [if_pos hcat]
                exact keysMono_dictSet w _ _
              · rw [if_neg hcat]
                rw [if_neg hcat] at hgt
                simp only [Except.ok.injEq] at hgt
                rw [← hgt]
                exact keysMono_dictSet w key result
            cases hbq : valBeq result trigger_result with
            | false =>
              rw [hbq] at hin
              simp only [Bool.false_eq_true, if_false, Except.ok.injEq, Prod.mk.injEq] at hin
              rw [← hin.1]
              exact hmid
            | true =>
              rw [hbq] at hin
              simp only [if_true] at hin
              cases hg4 : get_choice (.str "percentage") option_set (.int 100) rngC with
              | error e => rw [hg4] at hin; exact absurd hin (by simp)
              | ok p4 =>
                obtain ⟨pv, rngD⟩ := p4
                rw [hg4] at hin
                simp only [exceptBind_ok] at hin
                cases hrp : roll_percentage pv rngD with
                | error e => rw [hrp] at hin; exact absurd hin (by simp [Except.bind])
                | ok p5 =>
                  obtain ⟨b, rngE⟩ := p5
                  rw [hrp] at hin
                  simp only [exceptBind_ok] at hin
                  cases b with
                  | false =>
                    simp only [Bool.false_eq_true, if_false, Except.ok.injEq, Prod.mk.injEq] at hin
                    rw [← hin.1]
                    exact hmid
                  | true =>
                    simp only [if_true] at hin
                    cases hlo : lookupD option_set (Val.str "options") with
                    | none => rw [hlo] at hin; exact absurd hin (by simp)
                    | some ov =>
                      rw [hlo] at hin
                      cases ov with
                      | dict new_options =>
                        dsimp only at hin
                        cases hcd : applyCategoryDeltas
                            (putTarget w ((lookupD option_set
                              (.str "option_category")).getD .none)
                              (dictSet t key result)) new_options with
                        | error e =>
                          rw [hcd] at hin; exact absurd hin (by simp [Except.bind])
                        | ok w3 =>
                          rw [hcd] at hin
                          simp only [exceptBind_ok, Except.ok.injEq, Prod.mk.injEq] at hin
                          rw [← hin.1]
                          exact keysMono_trans hmid
                            (applyCategoryDeltas_keysMono _ _ _ hcd)
                      | none => exact absurd hin (by simp)
                      | bool b2 => exact absurd hin (by simp)
                      | int n => exact absurd hin (by simp)
                      | str s => exact absurd hin (by simp)
                      | list xs => exact absurd hin (by simp)
                      | vset xs => exact absurd hin (by simp)
  | none => exact absurd hin (by simp [triggerStep])
  | bool b => exact absurd hin (by simp [triggerStep])
  | int n => exact absurd hin (by simp [triggerStep])
  | str s => exact absurd hin (by simp [triggerStep])
  | list xs => exact absurd hin (by simp [triggerStep])
  | vset xs => exact absurd hin (by simp [triggerStep])

/-- The trigger cascade loop never removes top-level keys. -/
theorem applyTriggerSets_keysMono : ∀ (ts : List Val) (w w' : Dic)
    (vk vk' : List Val) (rng rng' : Rng) (i : Nat),
    applyTriggerSets w ts vk rng i = .ok (w', vk', rng') → KeysMono w w' := by
  intro ts
  induction ts with
  | nil =>
    intro w w' vk vk' rng rng' i h
    simp [applyTriggerSets] at h
    rw [← h.1]
    exact keysMono_refl w
  | cons os rest ih =>
    intro w w' vk vk' rng rng' i h
    simp only [applyTriggerSets] at h
    cases hin : triggerStep w os vk rng with
    | error e =>
      rw [hin] at h
      exact absurd h (by simp)
    | ok tr =>
      obtain ⟨w2, vk2, rng2⟩ := tr
      rw [hin] at h
      dsimp only at h
      exact keysMono_trans (triggerStep_keysMono w os vk rng w2 vk2 rng2 hin)
        (ih _ _ _ _ _ _ _ h)

/-- The function `roll_triggers` never removes top-level keys (it copies,
the generator version, resolves watched options in place and merges
overlays). -/
theorem roll_triggers_keysMono {gv : String} {w w' : Dic} {tv : Val}
    {vk vk' : List Val} {rng rng' : Rng}
    (h : roll_triggers gv w tv vk rng = .ok (w', vk', rng')) : KeysMono w w' := by
  unfold roll_triggers at h
  cases tv with
  | list ts =>
    dsimp only at h
    exact keysMono_trans
      (keysMono_dictSet w (.str "_Generator_Version") (.str gv))
      (applyTriggerSets_keysMono ts _ w' vk vk' rng rng' 0 h)
  | none => exact absurd h (by simp)
  | bool b => exact absurd h (by simp)
  | int n => exact absurd h (by simp)
  | str s => exact absurd h (by simp)
  | vset xs => exact absurd h (by simp)
  | dict m => exact absurd h (by simp)

/-- A passed merge-tag scan certifies that every scanned string key is
prefix-free. -/
theorem scanMergeTags_ok : ∀ (ks : List Val), scanMergeTags ks = .ok () →
    ∀ s, Val.str s ∈ ks → pyStartsWith s '+' = false ∧ pyStartsWith s '-' = false := by
  intro ks
  induction ks with
  | nil => intro _ s hs; simp at hs
  | cons k rest ih =>
    intro h s hs
    cases k with
    | str t =>
      simp only [scanMergeTags] at h
      by_cases h1 : pyStartsWith t '+' = true
      · rw [h1] at h; simp at h
      · rw [Bool.not_eq_true] at h1
        rw [h1] at h
        simp only [Bool.false_eq_true, if_false] at h
        by_cases h2 : pyStartsWith t '-' = true
        · rw [h2] at h; simp at h
        · rw [Bool.not_eq_true] at h2
          rw [h2] at h
          simp only [Bool.false_eq_true, if_false] at h
          rcases List.mem_cons.mp hs with he | hm
          · have ht : t = s := by injection he.symm
            rw [← ht]
            exact ⟨h1, h2⟩
          · exact ih h s hm
    | none => exact absurd h (by simp [scanMergeTags])
    | bool b => exact absurd h (by simp [scanMergeTags])
    | int n => exact absurd h (by simp [scanMergeTags])
    | list xs => exact absurd h (by simp [scanMergeTags])
    | vset xs => exact absurd h (by simp [scanMergeTags])
    | dict m => exact absurd h (by simp [scanMergeTags])

/-- A member key whose Python comparison hits `.str s` is literally
`.str s` in the key list. -/
theorem mem_keys_of_keyIn {d : Dic} {s : String} (h : keyIn d (.str s) = true) :
    Val.str s ∈ d.map Prod.fst := by
  unfold keyIn at h
  rw [List.any_eq_true] at h
  obtain ⟨p, hp, hb⟩ := h
  have he := valBeq_str_inv p.1 s hb
  exact List.mem_map.mpr ⟨p, hp, he⟩

/-- Stage 1 never removes top-level keys. -/
theorem stageLinked_keysMono {w w' : Dic} {rng rng' : Rng}
    (h : stageLinked w rng = .ok (w', rng')) : KeysMono w w' := by
  unfold stageLinked at h
  by_cases hk : keyIn w (Val.str "linked_options") = true
  · rw [if_pos hk] at h
    exact roll_linked_options_keysMono h
  · rw [if_neg hk] at h
    simp only [Except.ok.injEq, Prod.mk.injEq] at h
    rw [← h.1]
    exact keysMono_refl w

/-- Stage 2 never removes top-level keys. -/
theorem stageRootTriggers_keysMono {gv : String} {w w' : Dic}
    {vk vk' : List Val} {rng rng' : Rng}
    (h : stageRootTriggers gv w vk rng = .ok (w', vk', rng')) : KeysMono w w' := by
  unfold stageRootTriggers at h
  by_cases hk : keyIn w (Val.str "triggers") = true
  · rw [if_pos hk] at h
    exact roll_triggers_keysMono h
  · rw [if_neg hk] at h
    simp only [Except.ok.injEq, Prod.mk.injEq] at h
    rw [← h.1]
    exact keysMono_refl w

/-- Inversion of a successful `roll_settings` run: the early stages all
succeeded, and in particular the merge-tag scan passed over the
post-transform document and the chosen game's section. -/
theorem roll_settings_ok_inv {ctx : GenContext} {w : Dic} {plando : Nat}
    {rng : Rng} {out : PRecord × Rng}
    (hok : roll_settings ctx w plando rng = .ok out) :
    ∃ w1 rng1 w2 vk2 rng2 gameV rng3 game gw,
      stageLinked w rng = .ok (w1, rng1) ∧
      stageRootTriggers ctx.version_string w1 [.str "triggers"] rng1 =
        .ok (w2, vk2, rng2) ∧
      get_choice (.str "game") w2 .none rng2 = .ok (gameV, rng3) ∧
      requireGameString gameV = .ok game ∧
      requireGameSection w2 game = .ok gw ∧
      scanMergeTags (gw.map Prod.fst ++ w2.map Prod.fst) = .ok () := by
  unfold roll_settings at hok
  cases h1 : stageLinked w rng with
  | error e => rw [h1] at hok; simp at hok
  | ok p1 =>
    obtain ⟨w1, rng1⟩ := p1
    rw [h1] at hok
    simp only [exceptBind_ok] at hok
    cases h2 : stageRootTriggers ctx.version_string w1 [.str "triggers"] rng1 with
    | error e => rw [h2] at hok; simp at hok
    | ok p2 =>
      obtain ⟨w2, vk2, rng2⟩ := p2
      rw [h2] at hok
      simp only [exceptBind_ok] at hok
      cases h3 : checkRequires ctx w2 plando with
      | error e => rw [h3] at hok; simp at hok
      | ok u =>
        cases u
        rw [h3] at hok
        simp only [exceptBind_ok] at hok
        cases h4 : checkPerGameKeys (ctx.common_options.map Prod.fst) w2
            ctx.per_game_common_keys with
        | error e => rw [h4] at hok; simp at hok
        | ok u =>
          cases u
          rw [h4] at hok
          simp only [exceptBind_ok] at hok
          cases h5 : get_choice (.str "game") w2 .none rng2 with
          | error e => rw [h5] at hok; simp at hok
          | ok p5 =>
            obtain ⟨gameV, rng3⟩ := p5
            rw [h5] at hok
            simp only [exceptBind_ok] at hok
            cases h6 : requireGameString gameV with
            | error e => rw [h6] at hok; simp at hok
            | ok game =>
              rw [h6] at hok
              simp only [exceptBind_ok] at hok
              cases h7 : guardE ((ctx.world_types.lookup game).isSome)
                  ("No world found to handle game " ++ game ++
                    ". Check your spelling or installation of that world.") with
              | error e => rw [h7] at hok; simp at hok
              | ok u =>
                cases u
                rw [h7] at hok
                simp only [exceptBind_ok] at hok
                cases h8 : guardE (keyIn w2 (.str game))
                    ("No game options for selected game \"" ++ game ++ "\" found.") with
                | error e => rw [h8] at hok; simp at hok
                | ok u =>
                  cases u
                  rw [h8] at hok
                  simp only [exceptBind_ok] at hok
                  cases h9 : requireGameSection w2 game with
                  | error e => rw [h9] at hok; simp at hok
                  | ok gw =>
                    rw [h9] at hok
                    simp only [exceptBind_ok] at hok
                    cases h10 : scanMergeTags (gw.map Prod.fst ++ w2.map Prod.fst) with
                    | error e => rw [h10] at hok; simp at hok
                    | ok u =>
                      cases u
                      exact ⟨w1, rng1, w2, vk2, rng2, gameV, rng3, game, gw,
                        rfl, h2, h5, h6, h9, h10⟩

/-- C4 counterexample: the claim is not true of the input document when
a root trigger rewrites the chosen game's section before the merge-tag
scan — `c4Doc` holds the merge-tag key `-y` inside the chosen game's
section, yet `roll_settings` succeeds, because the trigger's unprefixed
top-level delta replaces that section wholesale before the scan. -/
theorem C4_counterexample :
    lookupD c4Doc (.str "Paper Mario: The Thousand-Year Door") =
      Option.some (.dict [(.str "-y", .list [.int 1])]) ∧
    pyStartsWith "-y" '-' = true ∧
    isOkE (roll_settings defaultCtx c4Doc 0 []) = true := by
  exact ⟨rfl, rfl, rfl⟩

/-- C4 (amended): a weights document carrying a key that starts with `+` or `-`
at its top level — or, when no root transform rewrites the document
(no `linked_options`/`triggers` keys) and the game is given as a plain
scalar, inside the chosen game's section — can never resolve:
`roll_settings` fails with an error for every context, plando set and
RNG stream, regardless of the key's value.  (No pipeline stage ever
removes a top-level key, so the merge-tag scan is inescapable.) -/
theorem C4_merge_tags_always_fail : ∀ (ctx : GenContext) (w : Dic) (plando : Nat)
    (rng : Rng),
    ((∃ s, keyIn w (.str s) = true ∧
        (pyStartsWith s '+' = true ∨ pyStartsWith s '-' = true)) ∨
     (∃ g gw s, keyIn w (.str "linked_options") = false ∧
        keyIn w (.str "triggers") = false ∧
        lookupD w (.str "game") = Option.some (.str g) ∧
        lookupD w (.str g) = Option.some (.dict gw) ∧
        keyIn gw (.str s) = true ∧
        (pyStartsWith s '+' = true ∨ pyStartsWith s '-' = true))) →
    isOkE (roll_settings ctx w plando rng) = false := by
  intro ctx w plando rng hyp
  cases hres : roll_settings ctx w plando rng with
  | error e => rfl
  | ok out =>
    exfalso
    obtain ⟨w1, rng1, w2, vk2, rng2, gameV, rng3, game, gw, h1, h2, h5, h6, h9, h10⟩ :=
      roll_settings_ok_inv hres
    rcases hyp with ⟨s, hks, hpm⟩ | ⟨g, gw0, s, hnl, hnt, hg, hgw, hks, hpm⟩
    · have hk2 : keyIn w2 (.str s) = true :=
        (stageRootTriggers_keysMono h2) _ ((stageLinked_keysMono h1) _ hks)
      have hmem : Val.str s ∈ w2.map Prod.fst := mem_keys_of_keyIn hk2
      have hnp := scanMergeTags_ok _ h10 s (List.mem_append.mpr (Or.inr hmem))
      rcases hpm with hp | hp
      · rw [hnp.1] at hp; exact Bool.false_ne_true hp
      · rw [hnp.2] at hp; exact Bool.false_ne_true hp
    · have e1 : stageLinked w rng = .ok (w, rng) := by
        unfold stageLinked; rw [hnl]; simp
      have h1e := e1.symm.trans h1
      simp only [Except.ok.injEq, Prod.mk.injEq] at h1e
      obtain ⟨hw1, hrng1⟩ := h1e
      subst hw1; subst hrng1
      have e2 : stageRootTriggers ctx.version_string w [.str "triggers"] rng =
          .ok (w, [.str "triggers"], rng) := by
        unfold stageRootTriggers; rw [hnt]; simp
      have h2e := e2.symm.trans h2
      simp only [Except.ok.injEq, Prod.mk.injEq] at h2e
      obtain ⟨hw2, _hvk2, hrng2⟩ := h2e
      subst hw2; subst hrng2
      have e5 : get_choice (.str "game") w .none rng = .ok (.str g, rng) := by
        unfold get_choice; rw [hg]
      have h5e := e5.symm.trans h5
      simp only [Except.ok.injEq, Prod.mk.injEq] at h5e
      obtain ⟨hgv, hrng3⟩ := h5e
      subst hgv; subst hrng3
      have e6 : requireGameString (Val.str g) = .ok g := rfl
      have h6e := e6.symm.trans h6
      simp only [Except.ok.injEq] at h6e
      subst h6e
      have e9 : requireGameSection w g = .ok gw0 := by
        unfold requireGameSection; rw [hgw]
      have h9e := e9.symm.trans h9
      simp only [Except.ok.injEq] at h9e
      subst h9e
      have hmem : Val.str s ∈ gw0.map Prod.fst := mem_keys_of_keyIn hks
      have hnp := scanMergeTags_ok _ h10 s (List.mem_append.mpr (Or.inl hmem))
      rcases hpm with hp | hp
      · rw [hnp.1] at hp; exact Bool.false_ne_true hp
      · rw [hnp.2] at hp; exact Bool.false_ne_true hp

/-- C4 witness: a top-level `+x` key, and a `-y` key inside the chosen
game's section, each make `roll_settings` fail. -/
theorem C4_witness :
    isOkE (roll_settings defaultCtx
      [(.str "game", .str "Paper Mario: The Thousand-Year Door"),
       (.str "+x", .int 1),
       (.str "Paper Mario: The Thousand-Year Door", .dict [])] 0 []) = false ∧
    isOkE (roll_settings defaultCtx
      [(.str "game", .str "Paper Mario: The Thousand-Year Door"),
       (.str "Paper Mario: The Thousand-Year Door",
        .dict [(.str "-y", .list [.int 1])])] 0 []) = false := by
  constructor
  · exact C4_merge_tags_always_fail defaultCtx _ 0 []
      (Or.inl ⟨"+x", by decide, Or.inl (by decide)⟩)
  · exact C4_merge_tags_always_fail defaultCtx _ 0 []
      (Or.inr ⟨"Paper Mario: The Thousand-Year Door", [(.str "-y", .list [.int 1])],
        "-y", by decide, by decide, rfl, rfl, by decide,
        Or.inr (by decide)⟩)

/-- C5 counterexample: a document whose `requires.version` (99.0.0)
parses strictly above the engine version (0.6.3) but whose
`linked_options` list holds a nameless set fails with the linked-option
diagnostic — not with a version-incompatibility error — because linked
options are processed before the `requires` gate. -/
theorem C5_counterexample :
    tuplizeVersionModel (.str "99.0.0") = .ok (99, 0, 0) ∧
    versionLt defaultCtx.version_tuple (99, 0, 0) = true ∧
    roll_settings defaultCtx
      [(.str "linked_options", .list [.dict [(.str "percentage", .int 100)]]),
       (.str "requires", .dict [(.str "version", .str "99.0.0")])] 0 [] =
      .error "One of your linked options does not have a name." ∧
    ¬ ("One of your linked options does not have a name." =
       "Settings reports required version of generator is at least 99.0.0, however generator is of version 0.6.3") := by
  exact ⟨rfl, rfl, rfl, by decide⟩

/-- C5 (amended): when the document has no root `linked_options` or
`triggers` keys (so nothing is processed before the `requires` gate), a
`requires.version` parsing strictly above the engine's version makes
`roll_settings` fail with the version-incompatibility error — for every
RNG stream and plando set, before any option of the document is
resolved. -/
theorem C5_amended_version_gate : ∀ (ctx : GenContext) (w : Dic) (plando : Nat)
    (rng : Rng) (req : Dic) (v : Val) (t : Nat × Nat × Nat),
    keyIn w (.str "linked_options") = false →
    keyIn w (.str "triggers") = false →
    lookupD w (.str "requires") = Option.some (.dict req) →
    lookupD req (.str "version") = Option.some v →
    ctx.tuplize_version v = .ok t →
    versionLt ctx.version_tuple t = true →
    roll_settings ctx w plando rng =
      .error ("Settings reports required version of generator is at least " ++
        renderVal v ++ ", however generator is of version " ++ ctx.version_string) := by
  intro ctx w plando rng req v t hnl hnt hreq hver htup hlt
  unfold roll_settings
  have e1 : stageLinked w rng = .ok (w, rng) := by
    unfold stageLinked; rw [hnl]; simp
  rw [e1]
  simp only [exceptBind_ok]
  have e2 : stageRootTriggers ctx.version_string w [.str "triggers"] rng =
      .ok (w, [.str "triggers"], rng) := by
    unfold stageRootTriggers; rw [hnt]; simp
  rw [e2]
  simp only [exceptBind_ok]
  have e3 : checkRequires ctx w plando =
      .error ("Settings reports required version of generator is at least " ++
        renderVal v ++ ", however generator is of version " ++ ctx.version_string) := by
    unfold checkRequires
    rw [hreq]
    dsimp only [Option.getD]
    have htr : pyTruthy (.dict req) = true := by
      cases req with
      | nil => simp [lookupD] at hver
      | cons a b => simp [pyTruthy]
    rw [htr]
    simp only [if_true]
    rw [hver]
    dsimp only [Option.getD]
    rw [htup]
    simp only [exceptBind_ok]
    rw [hlt]
    simp
  rw [e3]
  simp

/-- C5 witness: the version gate fires with the exact diagnostic on a
concrete document. -/
theorem C5_witness :
    roll_settings defaultCtx
      [(.str "requires", .dict [(.str "version", .str "99.0.0")]),
       (.str "game", .str "Paper Mario: The Thousand-Year Door"),
       (.str "Paper Mario: The Thousand-Year Door", .dict [])] 0 [] =
      .error "Settings reports required version of generator is at least 99.0.0, however generator is of version 0.6.3" := by
  exact C5_amended_version_gate defaultCtx _ 0 []
    [(.str "version", .str "99.0.0")] (.str "99.0.0") (99, 0, 0)
    (by decide) (by decide) rfl rfl rfl rfl

end TTYDGen
